import Mathlib

/-!
Verification of the ComfyUI portable-installer toolkit.

This file gives a shallow embedding of the toolkit's core operations
(`src/core/model_downloader.py`, `src/core/git_manager.py`,
`src/core/ffmpeg_manager.py`, `src/core/python_manager.py`,
`src/core/custom_node_manager.py`, `src/core/comfy_api.py`,
`src/data/models_registry.py`) and proves or refutes the specification's
claims about them.

Modelling conventions:
* A filesystem path is a list of components (`FPath`); `pathlib`'s `/`
  operator on a string containing slashes is modelled by splitting on `"/"`.
* The filesystem is the set of paths that currently exist
  (`FS := List FPath`, duplicate-free); `Path.exists()` is membership,
  `mkdir` / file creation is `FS.ins`, `unlink` is `FS.del`,
  `shutil.rmtree` removes the whole subtree.  "Same final state" means
  the same set of paths (`FS.seteq`).
* External effects (HTTP downloads, `subprocess.run`, `hf_hub_download`)
  are oracle values describing the outcome the outside world produced;
  operations are state-passing functions `oracle → FS → result × FS × trace`.
* A progress callback is modelled as a trace of `Ev.progress` events (the
  Python callbacks are `Optional`; the trace records the invocations that
  happen when a callback is supplied).  `Ev.attempt` events mark each
  network/subprocess step, so "never retries" is a statement about traces.
* Python exceptions are `Except` values where an operation can propagate
  them (`ComfyAPI`), and are folded into the ordinary result where the
  source catches them (`try/except` around whole operation bodies).
-/

namespace Comfy

/-- A filesystem path, as its list of components. -/
abbrev FPath := List String

/-- The filesystem: the set of existing paths (files and directories
alike), represented as a duplicate-free list.  Two filesystems are "the
same state" when they contain the same paths (`FS.seteq`). -/
abbrev FS := List FPath

/-- Create a path (`open(..., "wb")`, `mkdir(parents=True, exist_ok=True)`):
a no-op when the path already exists. -/
def FS.ins (p : FPath) (fs : FS) : FS := if p ∈ fs then fs else p :: fs

/-- Delete a path (`unlink(missing_ok=True)`). -/
def FS.del (p : FPath) (fs : FS) : FS := fs.filter (fun q => ¬ p = q)

/-- Remove a whole subtree: every path at or below `dir`
(`shutil.rmtree dir`). -/
def removeTree (dir : FPath) (fs : FS) : FS :=
  fs.filter (fun p => ¬ dir <+: p)

/-- Insert a path only when a condition holds. -/
def insertIf (c : Bool) (p : FPath) (fs : FS) : FS :=
  if c then FS.ins p fs else fs

/-- Extensional equality of filesystems: the same set of existing paths. -/
def FS.seteq (a b : FS) : Bool :=
  a.all (fun p => decide (p ∈ b)) && b.all (fun p => decide (p ∈ a))

/-- Observable events of an operation: progress-callback invocations
`callback(current, total, message)`, and attempts of external
network/subprocess steps (used to express "never retries"). -/
inductive Ev where
  | progress (current : Int) (total : Int) (msg : String)
  | attempt (step : String)
deriving Repr, DecidableEq

/-- Boolean string prefix test, computed on the character lists (the
`Substring`-based core functions do not reduce in the kernel). -/
def strIsPre (p s : String) : Bool := p.data.isPrefixOf s.data

/-- Boolean string suffix test, computed on the character lists. -/
def strIsSuf (p s : String) : Bool := p.data.isSuffixOf s.data

/-- Is a message one of the toolkit's error reports?  Every error report in
the modelled operations is produced by an f-string starting with one of
these fixed prefixes, and no non-error message starts with any of them. -/
def isErrorEv : Ev → Bool
  | .progress _ _ m =>
      strIsPre "Error" m || strIsPre "Git download failed" m ||
        strIsPre "FFmpeg download failed" m
  | .attempt _ => false

/-- Number of error reports in a trace. -/
def errorReports (tr : List Ev) : Nat := (tr.filter isErrorEv).length

/-- Number of times the external step `s` was attempted in a trace. -/
def attemptsOf (s : String) (tr : List Ev) : Nat :=
  (tr.filter (· = Ev.attempt s)).length

/-- Helper for `splitPath`: split a character list at every `'/'`. -/
def splitSlashAux : List Char → List Char → List String
  | [], acc => [String.mk acc.reverse]
  | c :: rest, acc =>
      if c = '/' then String.mk acc.reverse :: splitSlashAux rest []
      else splitSlashAux rest (c :: acc)

/-- Splitting a string path on `/` (`str.split("/")` semantics), as
`pathlib` does when a path string with separators is joined onto a
directory. -/
def splitPath (s : String) : List String := splitSlashAux s.data []

/-- Python `str.rstrip("/")`. -/
def rstripSlash (s : String) : String :=
  String.mk (s.data.reverse.dropWhile (· = '/')).reverse

/-- Helper for `replaceAll` on character lists; replaces every occurrence
of a nonempty pattern, scanning left to right as `str.replace` does.  The
fuel argument (instantiated with the input length, an upper bound on the
number of steps) keeps the recursion structural. -/
def replaceAllAux (pat repl : List Char) : Nat → List Char → List Char
  | 0, l => l
  | _ + 1, [] => []
  | fuel + 1, c :: rest =>
      if pat.isPrefixOf (c :: rest) ∧ pat ≠ [] then
        repl ++ replaceAllAux pat repl fuel ((c :: rest).drop pat.length)
      else c :: replaceAllAux pat repl fuel rest

/-- Python `str.replace(pat, repl)` (all occurrences). -/
def replaceAll (s pat repl : String) : String :=
  String.mk (replaceAllAux pat.data repl.data s.data.length s.data)

/-!
## `ModelDownloader` (src/core/model_downloader.py)
-/

/-- A `model_info` dictionary: the keys the downloader reads, each
optional because the source accesses them with `.get`. -/
structure ModelInfo where
  name : Option String := none
  repo : Option String := none
  filename : Option String := none
  folder : Option String := none
  subfolder : Option String := none
  url : Option String := none
deriving Repr, DecidableEq

/-- `model_info.get("folder", "checkpoints")`. -/
def ModelInfo.getFolder (m : ModelInfo) : String := m.folder.getD "checkpoints"

/-- `model_info.get("filename", "")`. -/
def ModelInfo.getFilename (m : ModelInfo) : String := m.filename.getD ""

/-- `ModelDownloader._flatten_filename`: `Path(filename).name`, the last
component of a possibly nested path. -/
def flatten_filename (s : String) : String := (splitPath s).getLastD ""

/-- The nested candidate path `models_dir / folder / filename`. -/
def modelPathNested (modelsDir : FPath) (m : ModelInfo) : FPath :=
  modelsDir ++ [m.getFolder] ++ splitPath m.getFilename

/-- The flattened candidate path
`models_dir / folder / _flatten_filename(filename)`. -/
def modelPathFlat (modelsDir : FPath) (m : ModelInfo) : FPath :=
  modelsDir ++ [m.getFolder] ++ [flatten_filename m.getFilename]

/-- `ModelDownloader.check_model_exists`. -/
def check_model_exists (fs : FS) (modelsDir : FPath) (m : ModelInfo) : Bool :=
  decide (modelPathNested modelsDir m ∈ fs) ||
    decide (modelPathFlat modelsDir m ∈ fs)

/-- `ModelDownloader.get_model_path`. -/
def get_model_path (fs : FS) (modelsDir : FPath) (m : ModelInfo) : FPath :=
  if modelPathFlat modelsDir m ∈ fs then modelPathFlat modelsDir m
  else if modelPathNested modelsDir m ∈ fs then modelPathNested modelsDir m
  else modelPathFlat modelsDir m

/-- `ModelDownloader.get_model_status`. -/
def get_model_status (fs : FS) (modelsDir : FPath) (m : ModelInfo) : String :=
  if check_model_exists fs modelsDir m then "installed" else "missing"

/-!
## Model registry (src/data/models_registry.py)
-/

/-- One entry of the static `MODELS` registry.  `size_gb` keeps the literal
decimal text of the Python float (no claim depends on its numeric value);
`repo`, `subfolder` and `url` are the keys that are present only in some
records. -/
structure ModelRecord where
  name : String
  repo : Option String
  filename : String
  folder : String
  size_gb : String
  category : String
  subfolder : Option String := none
  url : Option String := none
deriving Repr, DecidableEq

/-- The static `MODELS` registry, transcribed entry by entry (in four
chunks purely to keep elaboration fast; `MODELS` is their concatenation
in registry order). -/
def MODELS_part0 : List (String × ModelRecord) := [
  ("sd15", ⟨"SD 1.5 (Pruned EMA - 4.3GB)", some "runwayml/stable-diffusion-v1-5", "v1-5-pruned-emaonly.safetensors", "checkpoints", "4.27", "sd15", none, none⟩),
  ("sd15_fp16", ⟨"SD 1.5 (FP16 - 2.0GB)", some "runwayml/stable-diffusion-v1-5", "v1-5-pruned-emaonly.fp16.safetensors", "checkpoints", "2.0", "sd15", none, none⟩),
  ("sd15_inpainting", ⟨"SD 1.5 Inpainting (4.3GB)", some "runwayml/stable-diffusion-inpainting", "sd-v1-5-inpainting.ckpt", "checkpoints", "4.27", "sd15", none, none⟩),
  ("sd21", ⟨"SD 2.1 768 (Pruned - 5.2GB)", some "stabilityai/stable-diffusion-2-1", "v2-1_768-ema-pruned.safetensors", "checkpoints", "5.21", "sd21", none, none⟩),
  ("sd21_base", ⟨"SD 2.1 Base 512 (5.2GB)", some "stabilityai/stable-diffusion-2-1-base", "v2-1_512-ema-pruned.safetensors", "checkpoints", "5.21", "sd21", none, none⟩),
  ("sdxl_base", ⟨"SDXL 1.0 Base (FP32 - 6.9GB)", some "stabilityai/stable-diffusion-xl-base-1.0", "sd_xl_base_1.0.safetensors", "checkpoints", "6.94", "sdxl", none, none⟩),
  ("sdxl_base_fp16", ⟨"SDXL 1.0 Base (FP16 - 6.9GB)", some "stabilityai/stable-diffusion-xl-base-1.0", "sd_xl_base_1.0_0.9vae.safetensors", "checkpoints", "6.94", "sdxl", none, none⟩),
  ("sdxl_refiner", ⟨"SDXL 1.0 Refiner (6.1GB)", some "stabilityai/stable-diffusion-xl-refiner-1.0", "sd_xl_refiner_1.0.safetensors", "checkpoints", "6.08", "sdxl", none, none⟩),
  ("sdxl_turbo", ⟨"SDXL Turbo (FP16 - 6.9GB)", some "stabilityai/sdxl-turbo", "sd_xl_turbo_1.0_fp16.safetensors", "checkpoints", "6.94", "sdxl", none, none⟩),
  ("sdxl_lightning_4step", ⟨"SDXL Lightning (4-step LoRA)", some "ByteDance/SDXL-Lightning", "sdxl_lightning_4step_lora.safetensors", "loras", "0.39", "sdxl", none, none⟩),
  ("sdxl_lightning_8step", ⟨"SDXL Lightning (8-step LoRA)", some "ByteDance/SDXL-Lightning", "sdxl_lightning_8step_lora.safetensors", "loras", "0.39", "sdxl", none, none⟩),
  ("sdxl_lightning_4step_unet", ⟨"SDXL Lightning (4-step UNet - 5.1GB)", some "ByteDance/SDXL-Lightning", "sdxl_lightning_4step_unet.safetensors", "unet", "5.14", "sdxl", none, none⟩),
  ("sdxl_lightning_8step_unet", ⟨"SDXL Lightning (8-step UNet - 5.1GB)", some "ByteDance/SDXL-Lightning", "sdxl_lightning_8step_unet.safetensors", "unet", "5.14", "sdxl", none, none⟩),
  ("sdxl_hyper_1step_unet", ⟨"SDXL Hyper (1-step UNet - 5.1GB)", some "ByteDance/Hyper-SD", "Hyper-SDXL-1step-Unet.safetensors", "unet", "5.14", "sdxl", none, none⟩),
  ("sdxl_hyper_8step_lora", ⟨"SDXL Hyper (8-step LoRA)", some "ByteDance/Hyper-SD", "Hyper-SDXL-8steps-lora.safetensors", "loras", "0.79", "sdxl", none, none⟩),
  ("flux_schnell", ⟨"Flux.1 Schnell (BF16 - 23.8GB)", some "black-forest-labs/FLUX.1-schnell", "flux1-schnell.safetensors", "checkpoints", "23.8", "flux", none, none⟩),
  ("flux_dev", ⟨"Flux.1 Dev (BF16 - 23.8GB)", some "black-forest-labs/FLUX.1-dev", "flux1-dev.safetensors", "checkpoints", "23.8", "flux", none, none⟩),
  ("flux_schnell_fp8", ⟨"Flux.1 Schnell (FP8 - 11.9GB)", some "Comfy-Org/flux1-schnell", "flux1-schnell-fp8.safetensors", "checkpoints", "11.9", "flux", none, none⟩),
  ("flux_dev_fp8", ⟨"Flux.1 Dev (FP8 - 11.9GB)", some "Comfy-Org/flux1-dev", "flux1-dev-fp8.safetensors", "checkpoints", "11.9", "flux", none, none⟩),
  ("flux_schnell_gguf_q8", ⟨"Flux.1 Schnell GGUF (Q8_0 - 12.9GB)", some "city96/FLUX.1-schnell-gguf", "flux1-schnell-Q8_0.gguf", "gguf", "12.9", "flux", none, none⟩),
  ("flux_schnell_gguf_q5", ⟨"Flux.1 Schnell GGUF (Q5_K_S - 8.5GB)", some "city96/FLUX.1-schnell-gguf", "flux1-schnell-Q5_K_S.gguf", "gguf", "8.5", "flux", none, none⟩),
  ("flux_schnell_gguf_q4", ⟨"Flux.1 Schnell GGUF (Q4_K_S - 7.0GB)", some "city96/FLUX.1-schnell-gguf", "flux1-schnell-Q4_K_S.gguf", "gguf", "7.0", "flux", none, none⟩),
  ("flux_dev_gguf_q8", ⟨"Flux.1 Dev GGUF (Q8_0 - 12.9GB)", some "city96/FLUX.1-dev-gguf", "flux1-dev-Q8_0.gguf", "gguf", "12.9", "flux", none, none⟩),
  ("flux_dev_gguf_q5", ⟨"Flux.1 Dev GGUF (Q5_K_S - 8.5GB)", some "city96/FLUX.1-dev-gguf", "flux1-dev-Q5_K_S.gguf", "gguf", "8.5", "flux", none, none⟩),
  ("flux_dev_gguf_q4", ⟨"Flux.1 Dev GGUF (Q4_K_S - 7.0GB)", some "city96/FLUX.1-dev-gguf", "flux1-dev-Q4_K_S.gguf", "gguf", "7.0", "flux", none, none⟩),
  ("sd3_medium", ⟨"SD3 Medium (4.3GB)", some "stabilityai/stable-diffusion-3-medium", "sd3_medium.safetensors", "checkpoints", "4.34", "sd3", none, none⟩)]

def MODELS_part1 : List (String × ModelRecord) := [
  ("sd3_medium_incl_clips", ⟨"SD3 Medium w/ CLIP (5.9GB)", some "stabilityai/stable-diffusion-3-medium", "sd3_medium_incl_clips.safetensors", "checkpoints", "5.94", "sd3", none, none⟩),
  ("sd3_medium_incl_clips_t5", ⟨"SD3 Medium w/ CLIP+T5 (15.7GB)", some "stabilityai/stable-diffusion-3-medium", "sd3_medium_incl_clips_t5xxlfp16.safetensors", "checkpoints", "15.73", "sd3", none, none⟩),
  ("sd35_medium", ⟨"SD 3.5 Medium (5.4GB)", some "stabilityai/stable-diffusion-3.5-medium", "sd3.5_medium.safetensors", "checkpoints", "5.4", "sd3", none, none⟩),
  ("sd35_large", ⟨"SD 3.5 Large (8.9GB)", some "stabilityai/stable-diffusion-3.5-large", "sd3.5_large.safetensors", "checkpoints", "8.9", "sd3", none, none⟩),
  ("sd35_large_turbo", ⟨"SD 3.5 Large Turbo (8.9GB)", some "stabilityai/stable-diffusion-3.5-large-turbo", "sd3.5_large_turbo.safetensors", "checkpoints", "8.9", "sd3", none, none⟩),
  ("ltx_video", ⟨"LTX Video 2B v0.9.5", some "Lightricks/LTX-Video", "ltx-video-2b-v0.9.5.safetensors", "checkpoints", "9.37", "video", none, none⟩),
  ("svd", ⟨"Stable Video Diffusion", some "stabilityai/stable-video-diffusion-img2vid-xt", "svd_xt.safetensors", "checkpoints", "9.56", "video", none, none⟩),
  ("ltx2_19b_dev", ⟨"LTX-2 19B Dev (Full)", some "Lightricks/LTX-2", "ltx-2-19b-dev.safetensors", "checkpoints", "19.0", "ltx2", none, none⟩),
  ("ltx2_19b_dev_fp8", ⟨"LTX-2 19B Dev (FP8 - 9.5GB)", some "Lightricks/LTX-2", "ltx-2-19b-dev-fp8.safetensors", "checkpoints", "9.5", "ltx2", none, none⟩),
  ("ltx2_19b_distilled", ⟨"LTX-2 19B Distilled (Full)", some "Lightricks/LTX-2", "ltx-2-19b-distilled.safetensors", "checkpoints", "19.0", "ltx2", none, none⟩),
  ("ltx2_19b_distilled_fp8", ⟨"LTX-2 19B Distilled (FP8 - 9.5GB)", some "Lightricks/LTX-2", "ltx-2-19b-distilled-fp8.safetensors", "checkpoints", "9.5", "ltx2", none, none⟩),
  ("ltx2_distilled_lora", ⟨"LTX-2 Distilled LoRA", some "Lightricks/LTX-2", "ltx-2-19b-distilled-lora-384.safetensors", "loras", "0.38", "ltx2", none, none⟩),
  ("ltx2_upscaler", ⟨"LTX-2 Spatial Upscaler x2", some "Lightricks/LTX-2", "ltx-2-spatial-upscaler-x2-1.0.safetensors", "latent_upscale_models", "0.15", "ltx2", none, none⟩),
  ("ltx2_text_encoder", ⟨"LTX-2 Gemma 12B (FP4 Mixed)", some "Comfy-Org/ltx-2", "split_files/text_encoders/gemma_3_12B_it_fp4_mixed.safetensors", "text_encoders", "6.0", "ltx2", none, none⟩),
  ("ltx2_canny_lora", ⟨"LTX-2 Canny Control LoRA", some "Lightricks/LTX-2-19b-IC-LoRA-Canny-Control", "ltx-2-19b-ic-lora-canny-control.safetensors", "loras", "0.38", "ltx2", none, none⟩),
  ("ltx2_depth_lora", ⟨"LTX-2 Depth Control LoRA", some "Lightricks/LTX-2-19b-IC-LoRA-Depth-Control", "ltx-2-19b-ic-lora-depth-control.safetensors", "loras", "0.38", "ltx2", none, none⟩),
  ("flux2_dev_fp8", ⟨"Flux 2 Dev (FP8 Mixed)", some "Comfy-Org/flux2-dev", "split_files/diffusion_models/flux2_dev_fp8mixed.safetensors", "diffusion_models", "12.0", "flux2", none, none⟩),
  ("flux2_vae", ⟨"Flux 2 VAE", some "Comfy-Org/flux2-dev", "split_files/vae/flux2-vae.safetensors", "vae", "0.17", "flux2", none, none⟩),
  ("flux2_text_encoder_fp8", ⟨"Flux 2 Mistral 3 Small (FP8)", some "Comfy-Org/flux2-dev", "split_files/text_encoders/mistral_3_small_flux2_fp8.safetensors", "text_encoders", "12.0", "flux2", none, none⟩),
  ("flux2_text_encoder_bf16", ⟨"Flux 2 Mistral 3 Small (BF16)", some "Comfy-Org/flux2-dev", "split_files/text_encoders/mistral_3_small_flux2_bf16.safetensors", "text_encoders", "24.0", "flux2", none, none⟩),
  ("flux2_turbo_lora", ⟨"Flux 2 Turbo LoRA", some "Comfy-Org/flux2-dev", "split_files/loras/Flux2TurboComfyv2.safetensors", "loras", "0.4", "flux2", none, none⟩),
  ("flux2_klein_4b", ⟨"Flux 2 Klein 4B", some "Comfy-Org/flux2-klein", "split_files/diffusion_models/flux-2-klein-4b.safetensors", "diffusion_models", "4.0", "flux2", none, none⟩),
  ("flux2_klein_4b_fp8", ⟨"Flux 2 Klein 4B (FP8)", some "black-forest-labs/FLUX.2-klein-4b-fp8", "flux-2-klein-4b-fp8.safetensors", "checkpoints", "4.0", "flux2", none, none⟩),
  ("flux2_klein_qwen_text", ⟨"Flux 2 Klein Qwen 3 4B Text Encoder", some "Comfy-Org/flux2-klein", "split_files/text_encoders/qwen_3_4b.safetensors", "text_encoders", "4.0", "flux2", none, none⟩),
  ("qwen_image_fp8", ⟨"Qwen Image 2512 (FP8)", some "Comfy-Org/Qwen-Image_ComfyUI", "split_files/diffusion_models/qwen_image_2512_fp8_e4m3fn.safetensors", "diffusion_models", "6.0", "qwen", none, none⟩),
  ("qwen_image_vae", ⟨"Qwen Image VAE", some "Comfy-Org/Qwen-Image_ComfyUI", "split_files/vae/qwen_image_vae.safetensors", "vae", "0.17", "qwen", none, none⟩)]

def MODELS_part2 : List (String × ModelRecord) := [
  ("qwen_image_text_encoder", ⟨"Qwen 2.5 VL 7B (FP8)", some "Comfy-Org/Qwen-Image_ComfyUI", "split_files/text_encoders/qwen_2.5_vl_7b_fp8_scaled.safetensors", "text_encoders", "7.5", "qwen", none, none⟩),
  ("qwen_image_edit_fp8", ⟨"Qwen Image Edit 2511 (FP8)", some "Comfy-Org/Qwen-Image-Edit_ComfyUI", "split_files/diffusion_models/qwen_image_edit_fp8_e4m3fn.safetensors", "diffusion_models", "6.0", "qwen", none, none⟩),
  ("qwen_image_edit_bf16", ⟨"Qwen Image Edit 2511 (BF16)", some "Comfy-Org/Qwen-Image-Edit_ComfyUI", "split_files/diffusion_models/qwen_image_edit_2511_bf16.safetensors", "diffusion_models", "12.0", "qwen", none, none⟩),
  ("qwen_image_lightning_4step", ⟨"Qwen Image Lightning (4-step)", some "lightx2v/Qwen-Image-Lightning", "Qwen-Image-Lightning-4steps-V1.0.safetensors", "loras", "0.8", "qwen", none, none⟩),
  ("qwen_image_controlnet_union", ⟨"Qwen Image ControlNet Union", some "Comfy-Org/Qwen-Image-InstantX-ControlNets", "split_files/controlnet/Qwen-Image-InstantX-ControlNet-Union.safetensors", "controlnet", "1.5", "qwen", none, none⟩),
  ("hunyuan_video_15_i2v", ⟨"HunyuanVideo 1.5 720p I2V (FP16)", some "Comfy-Org/HunyuanVideo_1.5_repackaged", "split_files/diffusion_models/hunyuanvideo1.5_720p_i2v_fp16.safetensors", "diffusion_models", "12.0", "hunyuan", none, none⟩),
  ("hunyuan_video_15_vae", ⟨"HunyuanVideo 1.5 VAE (FP16)", some "Comfy-Org/HunyuanVideo_1.5_repackaged", "split_files/vae/hunyuanvideo15_vae_fp16.safetensors", "vae", "0.5", "hunyuan", none, none⟩),
  ("hunyuan_video_15_upscaler", ⟨"HunyuanVideo 1.5 1080p Upscaler", some "Comfy-Org/HunyuanVideo_1.5_repackaged", "split_files/diffusion_models/hunyuanvideo1.5_1080p_sr_distilled_fp16.safetensors", "diffusion_models", "3.0", "hunyuan", none, none⟩),
  ("hunyuan_video_text_encoder", ⟨"Qwen 2.5 VL 7B (FP8) - for HunyuanVideo", some "Comfy-Org/HunyuanVideo_1.5_repackaged", "split_files/text_encoders/qwen_2.5_vl_7b_fp8_scaled.safetensors", "text_encoders", "7.5", "hunyuan", none, none⟩),
  ("wan21_i2v_14b_fp8", ⟨"Wan 2.1 I2V 14B 480p (FP8)", some "Kijai/WanVideo_comfy_fp8_scaled", "I2V/Wan2_1-I2V-14B-480p_fp8_e4m3fn_scaled_KJ.safetensors", "diffusion_models", "14.0", "wan", none, none⟩),
  ("wan21_vae", ⟨"Wan 2.1 VAE (BF16)", some "Kijai/WanVideo_comfy", "Wan2_1_VAE_bf16.safetensors", "vae", "0.5", "wan", none, none⟩),
  ("wan21_text_encoder", ⟨"UMT5-XXL (FP8) - for Wan", some "Comfy-Org/Wan_2.1_ComfyUI_repackaged", "split_files/text_encoders/umt5_xxl_fp8_e4m3fn_scaled.safetensors", "text_encoders", "5.0", "wan", none, none⟩),
  ("z_image_turbo", ⟨"Z-Image Turbo (BF16)", some "Comfy-Org/z_image_turbo", "split_files/diffusion_models/z_image_turbo_bf16.safetensors", "diffusion_models", "4.5", "z_image", none, none⟩),
  ("z_image_turbo_vae", ⟨"Z-Image Turbo VAE", some "Comfy-Org/z_image_turbo", "split_files/vae/ae.safetensors", "vae", "0.17", "z_image", none, none⟩),
  ("z_image_turbo_text_encoder", ⟨"Qwen 3 4B Text Encoder (for Z-Image)", some "Comfy-Org/z_image_turbo", "split_files/text_encoders/qwen_3_4b.safetensors", "text_encoders", "4.0", "z_image", none, none⟩),
  ("z_image_turbo_controlnet", ⟨"Z-Image Turbo ControlNet Union", some "alibaba-pai/Z-Image-Turbo-Fun-Controlnet-Union", "Z-Image-Turbo-Fun-Controlnet-Union.safetensors", "controlnet", "1.5", "z_image", none, none⟩),
  ("hidream_i1_fp8", ⟨"HiDream I1 Full (FP8)", some "Comfy-Org/HiDream-I1_ComfyUI", "split_files/diffusion_models/hidream_i1_full_fp8.safetensors", "diffusion_models", "8.0", "hidream", none, none⟩),
  ("hidream_e1_bf16", ⟨"HiDream E1 Full (BF16)", some "Comfy-Org/HiDream-I1_ComfyUI", "split_files/diffusion_models/hidream_e1_full_bf16.safetensors", "diffusion_models", "16.0", "hidream", none, none⟩),
  ("hidream_clip_l", ⟨"HiDream CLIP-L", some "Comfy-Org/HiDream-I1_ComfyUI", "split_files/text_encoders/clip_l_hidream.safetensors", "text_encoders", "0.25", "hidream", none, none⟩),
  ("hidream_clip_g", ⟨"HiDream CLIP-G", some "Comfy-Org/HiDream-I1_ComfyUI", "split_files/text_encoders/clip_g_hidream.safetensors", "text_encoders", "1.4", "hidream", none, none⟩),
  ("kandinsky5_t2v", ⟨"Kandinsky 5 Lite T2V 5s", some "kandinskylab/Kandinsky-5.0-T2V-Lite-sft-5s", "model/kandinsky5lite_t2v_sft_5s.safetensors", "diffusion_models", "5.0", "kandinsky", none, none⟩),
  ("kandinsky5_i2v", ⟨"Kandinsky 5 Lite I2V 5s", some "kandinskylab/Kandinsky-5.0-I2V-Lite-5s", "model/kandinsky5lite_i2v_5s.safetensors", "diffusion_models", "5.0", "kandinsky", none, none⟩),
  ("chroma_hd_fp8", ⟨"Chroma 1 HD (FP8 Mixed)", some "Comfy-Org/Chroma1-HD_repackaged", "split_files/diffusion_models/Chroma1-HD-fp8mixed.safetensors", "diffusion_models", "6.0", "chroma", none, none⟩),
  ("chroma_radiance", ⟨"Chroma 1 Radiance", some "Comfy-Org/Chroma1-Radiance_Repackaged", "split_files/diffusion_models/chroma-radiance-x0.safetensors", "diffusion_models", "12.0", "chroma", none, none⟩),
  ("sdxl_vae", ⟨"SDXL VAE (335MB)", some "stabilityai/sdxl-vae", "sdxl_vae.safetensors", "vae", "0.33", "sdxl", none, none⟩),
  ("sdxl_vae_fp16", ⟨"SDXL VAE FP16 Fix (335MB)", some "madebyollin/sdxl-vae-fp16-fix", "sdxl_vae.safetensors", "vae", "0.33", "sdxl", none, none⟩)]

def MODELS_part3 : List (String × ModelRecord) := [
  ("sd_vae_ft_mse", ⟨"SD VAE ft-mse (335MB)", some "stabilityai/sd-vae-ft-mse", "diffusion_pytorch_model.safetensors", "vae", "0.33", "sd15", none, none⟩),
  ("sd_vae_ft_ema", ⟨"SD VAE ft-ema (335MB)", some "stabilityai/sd-vae-ft-ema", "diffusion_pytorch_model.safetensors", "vae", "0.33", "sd15", none, none⟩),
  ("flux_vae", ⟨"Flux VAE (168MB)", some "black-forest-labs/FLUX.1-schnell", "ae.safetensors", "vae", "0.168", "flux", none, none⟩),
  ("clip_vit_l", ⟨"CLIP ViT-L/14 (SD1.5/SDXL)", some "openai/clip-vit-large-patch14", "model.safetensors", "clip", "0.89", "clip", none, none⟩),
  ("clip_vit_h", ⟨"CLIP ViT-H/14 (SDXL)", some "laion/CLIP-ViT-H-14-laion2B-s32B-b79K", "open_clip_pytorch_model.safetensors", "clip", "3.94", "clip", none, none⟩),
  ("flux_clip_l", ⟨"Flux CLIP-L Text Encoder", some "comfyanonymous/flux_text_encoders", "clip_l.safetensors", "clip", "0.25", "flux", none, none⟩),
  ("flux_t5xxl", ⟨"Flux T5-XXL Text Encoder (FP16 - 9.8GB)", some "comfyanonymous/flux_text_encoders", "t5xxl_fp16.safetensors", "clip", "9.79", "flux", none, none⟩),
  ("flux_t5xxl_fp8", ⟨"Flux T5-XXL Text Encoder (FP8 - 4.9GB)", some "comfyanonymous/flux_text_encoders", "t5xxl_fp8_e4m3fn.safetensors", "clip", "4.89", "flux", none, none⟩),
  ("flux_t5xxl_gguf_q8", ⟨"Flux T5-XXL GGUF (Q8_0 - 5.2GB)", some "city96/t5-v1_1-xxl-encoder-gguf", "t5-v1_1-xxl-encoder-Q8_0.gguf", "clip", "5.2", "flux", none, none⟩),
  ("flux_t5xxl_gguf_q4", ⟨"Flux T5-XXL GGUF (Q4_K_S - 2.8GB)", some "city96/t5-v1_1-xxl-encoder-gguf", "t5-v1_1-xxl-encoder-Q4_K_S.gguf", "clip", "2.8", "flux", none, none⟩),
  ("sd3_clip_g", ⟨"SD3 CLIP-G Text Encoder", some "stabilityai/stable-diffusion-3-medium", "text_encoders/clip_g.safetensors", "clip", "1.39", "sd3", some "text_encoders", none⟩),
  ("sd3_clip_l", ⟨"SD3 CLIP-L Text Encoder", some "stabilityai/stable-diffusion-3-medium", "text_encoders/clip_l.safetensors", "clip", "0.25", "sd3", some "text_encoders", none⟩),
  ("sd3_t5xxl", ⟨"SD3 T5-XXL Text Encoder (FP16)", some "stabilityai/stable-diffusion-3-medium", "text_encoders/t5xxl_fp16.safetensors", "clip", "9.79", "sd3", some "text_encoders", none⟩),
  ("controlnet_canny_sd15", ⟨"ControlNet Canny (SD1.5)", some "lllyasviel/control_v11p_sd15_canny", "diffusion_pytorch_model.safetensors", "controlnet", "1.45", "sd15", none, none⟩),
  ("controlnet_depth_sd15", ⟨"ControlNet Depth (SD1.5)", some "lllyasviel/control_v11f1p_sd15_depth", "diffusion_pytorch_model.safetensors", "controlnet", "1.45", "sd15", none, none⟩),
  ("controlnet_openpose_sd15", ⟨"ControlNet OpenPose (SD1.5)", some "lllyasviel/control_v11p_sd15_openpose", "diffusion_pytorch_model.safetensors", "controlnet", "1.45", "sd15", none, none⟩),
  ("controlnet_canny_sdxl", ⟨"ControlNet Canny (SDXL)", some "diffusers/controlnet-canny-sdxl-1.0", "diffusion_pytorch_model.safetensors", "controlnet", "2.5", "sdxl", none, none⟩),
  ("controlnet_depth_sdxl", ⟨"ControlNet Depth (SDXL)", some "diffusers/controlnet-depth-sdxl-1.0", "diffusion_pytorch_model.safetensors", "controlnet", "2.5", "sdxl", none, none⟩),
  ("realesrgan_x4", ⟨"RealESRGAN x4plus", some "ai-forever/Real-ESRGAN", "RealESRGAN_x4.pth", "upscale_models", "0.064", "upscale", none, none⟩),
  ("4x_ultrasharp", ⟨"4x UltraSharp", none, "4x-UltraSharp.pth", "upscale_models", "0.067", "upscale", none, some "https://huggingface.co/Kim2091/UltraSharp/resolve/main/4x-UltraSharp.pth"⟩),
  ("clip_vision_vit_h", ⟨"CLIP Vision ViT-H", some "h94/IP-Adapter", "models/image_encoder/model.safetensors", "clip_vision", "2.53", "ipadapter", some "models/image_encoder", none⟩),
  ("easynegative", ⟨"EasyNegative", some "gsdf/EasyNegative", "EasyNegative.safetensors", "embeddings", "0.024", "embedding", none, none⟩),
  ("badhandv4", ⟨"BadHand v4", none, "badhandv4.pt", "embeddings", "0.035", "embedding", none, some "https://civitai.com/api/download/models/20068"⟩)]

def MODELS : List (String × ModelRecord) :=
  MODELS_part0 ++ MODELS_part1 ++ MODELS_part2 ++ MODELS_part3

/-- An element of the list returned by `list_available_models`: the
registry record extended with the registry key under `"id"`
(`{**info, "id": model_id}`; no registry record has an `"id"` key, so the
update is a pure extension). -/
structure ModelEntry extends ModelRecord where
  id : String
deriving Repr, DecidableEq

/-- `ModelDownloader.list_available_models`. -/
def list_available_models (category : String) : List ModelEntry :=
  MODELS.filterMap fun p =>
    if p.2.folder = category then some ⟨p.2, p.1⟩ else none

/-!
## `ModelDownloader` download operations
-/

/-- Outcome of the direct-URL transfer in `_download_direct`
(`requests.get` + streaming + writing).  `raise` covers any exception from
the request, the streaming loop, or the file write; `wrotePart` records
whether the target file had already been created when the exception hit.
On `success` the body was streamed in the given chunk sizes against the
given `Content-Length`. -/
inductive DirectOutcome where
  | raise (msg : String) (wrotePart : Bool)
  | success (chunks : List Nat) (totalSize : Nat)
deriving Repr, DecidableEq

/-- The progress events of `_download_direct`'s read loop: after each chunk,
when `total_size > 0`, report `pct = int(downloaded / total_size * 100)`
(computed here as the equal natural division `downloaded * 100 / total`)
but only when it differs from the last reported value. -/
def directLoopEvents (filename : String) (total : Nat) :
    Nat → Int → List Nat → List Ev
  | _, _, [] => []
  | d, last, c :: rest =>
      let d2 := d + c
      if 0 < total then
        let pct : Int := ((d2 * 100) / total : Nat)
        if pct ≠ last then
          .progress pct 100
              ("Downloading " ++ filename ++ "... " ++
                toString (d2 / (1024 * 1024)) ++ "/" ++
                toString (total / (1024 * 1024)) ++ " MB") ::
            directLoopEvents filename total d2 pct rest
        else directLoopEvents filename total d2 last rest
      else directLoopEvents filename total d2 last rest

/-- `ModelDownloader._download_direct`. -/
def download_direct (reqAvail : Bool) (o : DirectOutcome) (fs : FS)
    (modelsDir : FPath) (m : ModelInfo) : Bool × FS × List Ev :=
  if ¬reqAvail then
    (false, fs, [.progress 0 100 "Error: requests library not available"])
  else
    let filename := m.getFilename
    let targetDir := modelsDir ++ [m.getFolder]
    let targetPath := modelPathNested modelsDir m
    let fs1 := FS.ins targetDir fs
    let tr0 : List Ev :=
      [.progress 0 100 ("Downloading " ++ filename ++ "..."),
       .attempt "requests.get"]
    match o with
    | .raise msg wrotePart =>
        (false, insertIf wrotePart targetPath fs1,
          tr0 ++ [.progress 0 100 ("Error: " ++ msg)])
    | .success chunks total =>
        let fs2 := FS.ins targetPath fs1
        (decide (targetPath ∈ fs2), fs2,
          tr0 ++ directLoopEvents filename total 0 (-1) chunks ++
            [.progress 100 100 ("Downloaded " ++ filename)])

/-- The extensions `_cleanup_hf_structure` flattens. -/
def model_extensions : List String :=
  [".safetensors", ".ckpt", ".bin", ".pt", ".pth"]

/-- The last component of a path (`Path.name`). -/
def lastComp (p : FPath) : String := p.getLastD ""

/-- One move of `_cleanup_hf_structure`: a matching item strictly below
`target` whose parent is not `target` itself moves to
`target / item.name`, unless that destination already exists.  The
`p ∈ fs` guard skips items an earlier move already relocated. -/
def cleanupMove (target : FPath) (fs : FS) (p : FPath) : FS :=
  if target <+: p ∧ target.length + 1 < p.length ∧ p ∈ fs then
    let dest := target ++ [lastComp p]
    if dest ∈ fs then fs else FS.ins dest (FS.del p fs)
  else fs

/-- One `for item in target_dir.rglob(f"*{ext}")` pass; the glob is the
set of existing matching paths when the pass starts. -/
def cleanupPass (target : FPath) (ext : String) (fs : FS) : FS :=
  (fs.filter (fun p => strIsSuf ext (lastComp p))).foldl
    (cleanupMove target) fs

/-- `ModelDownloader._cleanup_hf_structure`.  The final sweep that `rmdir`s
now-empty directories is omitted: it can only remove empty directories and
no claim observes those. -/
def cleanup_hf_structure (target : FPath) (fs : FS) : FS :=
  model_extensions.foldl (fun acc ext => cleanupPass target ext acc) fs

/-- Outcome of `hf_hub_download`: either it raises, or it succeeds, in
which case (per its contract with `local_dir=target_dir`) the file is
stored at `target_dir/(subfolder/)filename` and that path returned. -/
inductive HfOutcome where
  | raise (msg : String)
  | success
deriving Repr, DecidableEq

/-- The path `hf_hub_download(..., local_dir=target_dir)` stores the file
at and returns. -/
def hfDownloadedPath (modelsDir : FPath) (m : ModelInfo) : FPath :=
  modelsDir ++ [m.getFolder] ++
    (match m.subfolder with | some s => splitPath s | none => []) ++
    splitPath m.getFilename

/-- `ModelDownloader._download_huggingface`. -/
def download_huggingface (o : HfOutcome) (fs : FS) (modelsDir : FPath)
    (m : ModelInfo) : Bool × FS × List Ev :=
  let repoId := m.repo.getD ""
  let filename := m.getFilename
  let targetDir := modelsDir ++ [m.getFolder]
  let flatName := flatten_filename filename
  let finalPath := modelPathFlat modelsDir m
  let fs1 := FS.ins targetDir fs
  let tr0 : List Ev :=
    [.progress 0 100 ("Downloading " ++ flatName ++ " from " ++ repoId ++ "..."),
     .attempt "hf_hub_download"]
  match o with
  | .raise msg => (false, fs1, tr0 ++ [.progress 0 100 ("Error: " ++ msg)])
  | .success =>
      let dp := hfDownloadedPath modelsDir m
      let fs2 := FS.ins dp fs1
      let fs3 := cleanup_hf_structure targetDir fs2
      let fs4 :=
        if finalPath ∉ fs3 ∧ dp ∈ fs3 then FS.ins finalPath (FS.del dp fs3)
        else fs3
      (decide (finalPath ∈ fs4), fs4,
        tr0 ++ [.progress 100 100 ("Downloaded " ++ flatName)])

/-- `ModelDownloader.download_model`. -/
def download_model (reqAvail hfAvail : Bool) (oDirect : DirectOutcome)
    (oHf : HfOutcome) (fs : FS) (modelsDir : FPath) (m : ModelInfo) :
    Bool × FS × List Ev :=
  if check_model_exists fs modelsDir m then
    (true, fs, [.progress 100 100 (m.name.getD "Model" ++ " already exists")])
  else if m.url.isSome then download_direct reqAvail oDirect fs modelsDir m
  else if m.repo.isSome && hfAvail then download_huggingface oHf fs modelsDir m
  else (false, fs,
    [.progress 0 100 "Error: No download source specified or HF not available"])

/-!
## `GitManager` (src/core/git_manager.py)
-/

/-- Outcome of a `subprocess.run` call: the process completed with an exit
code and captured output, the executable was missing
(`FileNotFoundError`), or some other exception was raised. -/
inductive ProcOutcome where
  | completed (returncode : Int) (stdout stderr : String)
  | fileNotFound
  | exc (msg : String)
deriving Repr, DecidableEq

/-- The message `run_git` produces when no git executable can be found. -/
def gitNotFoundMsg : String :=
  "Git not found. Neither portable nor system Git is available."

/-- `GitManager.run_git`: the `(success, output)` result plus the
progress-callback trace. -/
def run_git (o : ProcOutcome) : (Bool × String) × List Ev :=
  match o with
  | .completed rc out err =>
      if rc ≠ 0 then ((false, err), []) else ((true, out), [])
  | .fileNotFound =>
      ((false, gitNotFoundMsg), [.progress 0 100 gitNotFoundMsg])
  | .exc msg => ((false, msg), [])

/-- Outcome of a `urllib` download (`_download_file` in the Git, FFmpeg and
Python managers): an exception (with or without the destination file
already created), or the whole body read in the given chunk sizes against
the given `Content-Length`. -/
inductive DlOutcome where
  | raise (msg : String) (wrotePart : Bool)
  | success (chunks : List Nat) (totalSize : Nat)
deriving Repr, DecidableEq

/-- The progress events of the managers' `_download_file` read loops: after
each nonempty chunk, when `total_size > 0`, report
`int(downloaded / total_size * mult) + 5` out of 100 (computed here as the
equal natural division `downloaded * mult / total + 5`), with the
manager's label in the message (`mult` is 75 for Git, 70 for FFmpeg, 45
for Python, 65 for the tkinter NuGet download). -/
def dlLoopEvents (mult : Nat) (label : String) (total : Nat) :
    Nat → List Nat → List Ev
  | _, [] => []
  | d, c :: rest =>
      let d2 := d + c
      (if 0 < total then
        [Ev.progress ((d2 * mult) / total + 5 : Nat) 100
          ("Downloading " ++ label ++ "... " ++
            toString (d2 / (1024 * 1024)) ++ "/" ++
            toString (total / (1024 * 1024)) ++ " MB")]
      else []) ++ dlLoopEvents mult label total d2 rest

/-- Outcomes of the external steps of `GitManager.download_and_setup`:
the MinGit download, and the zip extraction (`extract = some msg` means
`extractall` raised; `zipHasGitExe` says whether the archive contains
`cmd/git.exe`). -/
structure GitSetupOracle where
  download : DlOutcome
  extract : Option String := none
  zipHasGitExe : Bool := true
deriving Repr, DecidableEq

/-- `GitManager.download_and_setup`.  `ensure_git_in_path` only mutates the
process environment (`PATH`), which the filesystem model does not
observe. -/
def git_download_and_setup (o : GitSetupOracle) (fs : FS) (baseDir : FPath) :
    Bool × FS × List Ev :=
  let gitDir := baseDir ++ ["git_portable"]
  let gitExe := gitDir ++ ["cmd", "git.exe"]
  if gitExe ∈ fs then
    (true, fs, [.progress 100 100 "Portable Git already installed"])
  else
    let zipPath := baseDir ++ ["git_portable.zip"]
    let tr0 : List Ev :=
      [.progress 0 100 "Downloading MinGit 2.47.1...",
       .attempt "download MinGit"]
    match o.download with
    | .raise msg wrotePart =>
        (false, insertIf wrotePart zipPath fs,
          tr0 ++ [.progress 0 100 ("Git download failed: " ++ msg)])
    | .success chunks total =>
        let fs1 := FS.ins zipPath fs
        let tr1 := tr0 ++ dlLoopEvents 75 "Git" total 0 chunks ++
          [.progress 80 100 "Extracting Git..."]
        let fs2 := FS.ins gitDir fs1
        match o.extract with
        | some msg =>
            (false, fs2, tr1 ++ [.progress 0 100 ("Git download failed: " ++ msg)])
        | none =>
            let fs3 := insertIf o.zipHasGitExe gitExe fs2
            let fs4 := FS.del zipPath fs3
            (true, fs4, tr1 ++ [.progress 100 100 "Portable Git ready"])

/-!
## `FfmpegManager` (src/core/ffmpeg_manager.py)
-/

/-- Outcomes of the external steps of `FfmpegManager.download_and_setup`:
the download, the zip extraction (`extract = some msg` means `extractall`
raised), the name of the first directory found inside the temp dir after
extraction (`none` = no inner directory), and whether that directory has a
`bin/` subdirectory containing `ffmpeg.exe`. -/
structure FfmpegOracle where
  download : DlOutcome
  extract : Option String := none
  innerName : Option String := none
  binExists : Bool := true
  binHasFfmpeg : Bool := true
deriving Repr, DecidableEq

/-- The `except` branch of `FfmpegManager.download_and_setup`: remove the
temp tree and the zip, report, return `False`. -/
def ffmpegFail (fs : FS) (baseDir : FPath) (msg : String) (tr : List Ev) :
    Bool × FS × List Ev :=
  (false,
    FS.del (baseDir ++ ["ffmpeg_portable.zip"])
      (removeTree (baseDir ++ ["_ffmpeg_temp"]) fs),
    tr ++ [.progress 0 100 ("FFmpeg download failed: " ++ msg)])

/-- `FfmpegManager.download_and_setup`. -/
def ffmpeg_download_and_setup (o : FfmpegOracle) (fs : FS) (baseDir : FPath) :
    Bool × FS × List Ev :=
  let ffDir := baseDir ++ ["ffmpeg_portable"]
  let ffExe := ffDir ++ ["bin", "ffmpeg.exe"]
  if ffExe ∈ fs then
    (true, fs, [.progress 100 100 "Portable FFmpeg already installed"])
  else
    let zipPath := baseDir ++ ["ffmpeg_portable.zip"]
    let temp := baseDir ++ ["_ffmpeg_temp"]
    let tr0 : List Ev :=
      [.progress 0 100 "Downloading FFmpeg...", .attempt "download FFmpeg"]
    match o.download with
    | .raise msg wrotePart =>
        ffmpegFail (insertIf wrotePart zipPath fs) baseDir msg tr0
    | .success chunks total =>
        let fs1 := FS.ins zipPath fs
        let tr1 := tr0 ++ dlLoopEvents 70 "FFmpeg" total 0 chunks ++
          [.progress 75 100 "Extracting FFmpeg..."]
        let fs2 := FS.ins temp fs1
        match o.extract with
        | some msg => ffmpegFail fs2 baseDir msg tr1
        | none =>
          match o.innerName with
          | none =>
              ffmpegFail fs2 baseDir
                "FFmpeg zip has unexpected structure (no inner directory)" tr1
          | some nm =>
              let inner := temp ++ [nm]
              let fs3 := FS.ins inner fs2
              let fs4 := insertIf o.binExists (inner ++ ["bin"]) fs3
              let fs5 := insertIf (o.binExists && o.binHasFfmpeg)
                (inner ++ ["bin", "ffmpeg.exe"]) fs4
              let fs6 := FS.ins ffDir fs5
              if o.binExists then
                let binDest := ffDir ++ ["bin"]
                let fs7 :=
                  if binDest ∈ fs6 then removeTree binDest fs6 else fs6
                let fs8 := FS.ins binDest (removeTree (inner ++ ["bin"]) fs7)
                let fs9 := insertIf o.binHasFfmpeg ffExe fs8
                let fs10 := FS.del zipPath (removeTree temp fs9)
                (true, fs10, tr1 ++ [.progress 100 100 "Portable FFmpeg ready"])
              else
                ffmpegFail fs6 baseDir "FFmpeg zip missing bin/ directory" tr1

/-!
## `PythonManager` (src/core/python_manager.py)
-/

/-- Outcomes of the external steps of `PythonManager.download_and_setup`:
whether `python -m pip --version` succeeds (`has_pip`, queried before any
bootstrap happens), the embeddable-zip download and extraction (the
archive normally contains `python.exe` and the `python312._pth` file), and
the `get-pip.py` download and run. -/
structure PyOracle where
  hasPip : Bool
  download : DlOutcome := .success [] 0
  extract : Option String := none
  zipHasPythonExe : Bool := true
  zipHasPth : Bool := true
  getPipDownload : Option String := none
  getPipExit : Int := 0
  getPipStderr : String := ""
deriving Repr, DecidableEq

/-- The `except` branch of `PythonManager.download_and_setup` (no cleanup
happens there). -/
def pythonFail (fs : FS) (msg : String) (tr : List Ev) : Bool × FS × List Ev :=
  (false, fs, tr ++ [.progress 0 100 ("Error setting up Python: " ++ msg)])

/-- Steps 3-5 of `PythonManager.download_and_setup` (configure `._pth`,
create site-packages, bootstrap pip), starting from the filesystem and
trace left by the optional download step. -/
def python_setup_phase2 (o : PyOracle) (baseDir : FPath) (fs5 : FS)
    (tr5 : List Ev) : Bool × FS × List Ev :=
  let pyDir := baseDir ++ ["python_embedded"]
  let sitePk := pyDir ++ ["Lib", "site-packages"]
  let pthFile := pyDir ++ ["python312._pth"]
  let getPip := pyDir ++ ["get-pip.py"]
  let tr6 := tr5 ++ [.progress 65 100 "Configuring Python paths..."]
  if pthFile ∉ fs5 then
    pythonFail fs5 "Could not find python*._pth file in embedded Python" tr6
  else
    let fs6 := FS.ins sitePk fs5
    if o.hasPip then
      (true, fs6, tr6 ++ [.progress 100 100 "Embedded Python ready"])
    else
      let tr7 := tr6 ++
        [.progress 75 100 "Bootstrapping pip...",
         .progress 78 100 "Downloading get-pip.py...",
         .attempt "download get-pip.py"]
      match o.getPipDownload with
      | some msg => pythonFail fs6 msg tr7
      | none =>
          let fs7 := FS.ins getPip fs6
          let tr8 := tr7 ++
            [.progress 82 100 "Installing pip...",
             .attempt "run get-pip.py"]
          if o.getPipExit ≠ 0 then
            pythonFail fs7 ("get-pip.py failed: " ++ o.getPipStderr) tr8
          else
            let fs8 := FS.del getPip fs7
            let tr9 := tr8 ++
              [.progress 88 100 "Upgrading pip...",
               .attempt "pip upgrade"]
            (true, fs8, tr9 ++ [.progress 100 100 "Embedded Python ready"])

/-- `PythonManager.download_and_setup`.  The `._pth` file the embedded
distribution ships is modelled at the fixed name `python312._pth`;
`_configure_pth` rewrites it in place (same path), and raises
`FileNotFoundError` when the glob finds nothing.  `has_pip` spawns a pip
subprocess to probe for pip; it is queried only before the bootstrap, so
it is a single oracle value. -/
def python_download_and_setup (o : PyOracle) (fs : FS) (baseDir : FPath) :
    Bool × FS × List Ev :=
  let pyDir := baseDir ++ ["python_embedded"]
  let pyExe := pyDir ++ ["python.exe"]
  let sitePk := pyDir ++ ["Lib", "site-packages"]
  let pthFile := pyDir ++ ["python312._pth"]
  if (pyExe ∈ fs ∧ sitePk ∈ fs) ∧ o.hasPip then
    (true, fs, [.progress 100 100 "Embedded Python already installed"])
  else if pyExe ∈ fs then python_setup_phase2 o baseDir fs []
  else
    let tr0 : List Ev :=
      [.progress 0 100 "Downloading Python 3.12.8...",
       .attempt "download Python"]
    match o.download with
    | .raise msg wrotePart =>
        pythonFail
          (insertIf wrotePart (baseDir ++ ["python_embedded.zip"]) fs)
          msg tr0
    | .success chunks total =>
        let zipPath := baseDir ++ ["python_embedded.zip"]
        let fs1 := FS.ins zipPath fs
        let tr1 := tr0 ++ dlLoopEvents 45 "Python" total 0 chunks ++
          [.progress 50 100 "Extracting Python..."]
        let fs2 := FS.ins pyDir fs1
        match o.extract with
        | some msg => pythonFail fs2 msg tr1
        | none =>
            let fs3 := insertIf o.zipHasPythonExe pyExe fs2
            let fs4 := insertIf o.zipHasPth pthFile fs3
            python_setup_phase2 o baseDir (FS.del zipPath fs4) tr1

/-!
## `CustomNodeManager` (src/core/custom_node_manager.py)
-/

/-- Outcome of the `git clone` subprocess in `install_node`:
`success hasRequirements` says the clone created the target directory and
whether it contains a `requirements.txt`. -/
inductive CloneOutcome where
  | success (hasRequirements : Bool)
  | fail (stderr : String)
  | fileNotFound
  | exc (msg : String)
deriving Repr, DecidableEq

/-- Outcomes of the venv-manager calls `install_node` makes. -/
structure VenvOracle where
  venvCreated : Bool
  reqInstallOk : Bool
  reqInstallErr : String := ""
deriving Repr, DecidableEq

/-- A `node_info` dictionary. -/
structure NodeInfo where
  repo : Option String := none
  name : Option String := none
  branch : Option String := none
deriving Repr, DecidableEq

/-- `repo_url.rstrip("/").split("/")[-1].replace(".git", "")`. -/
def repoNameOf (url : String) : String :=
  replaceAll ((splitPath (rstripSlash url)).getLastD "") ".git" ""

/-- The default display name
`repo_url.split("/")[-1].replace(".git", "")` (note: no `rstrip`,
unlike `repoNameOf`). -/
def defaultNodeName (url : String) : String :=
  replaceAll ((splitPath url).getLastD "") ".git" ""

/-- Modelled from the spec: `VenvManager.install_requirements` lives in
`core/venv_manager.py`, which is not among the provided sources.  Per the
spec's uniform error handling ("errors are handled... by catching,
formatting a message, and returning a boolean/None"), it attempts the pip
install once, reports an error message through the callback on failure,
and returns a boolean. -/
def venv_install_requirements (o : VenvOracle) : Bool × List Ev :=
  if o.reqInstallOk then (true, [.attempt "pip install requirements"])
  else
    (false, [.attempt "pip install requirements",
             .progress 0 100 ("Error: " ++ o.reqInstallErr)])

/-- `CustomNodeManager._install_node_requirements`. -/
def install_node_requirements (o : VenvOracle) (fs : FS) (nodeDir : FPath) :
    Bool × List Ev :=
  if nodeDir ++ ["requirements.txt"] ∉ fs then (true, [])
  else if ¬o.venvCreated then
    (true, [.progress 0 100 "Warning: venv not created, skipping requirements"])
  else venv_install_requirements o

/-- `CustomNodeManager.install_node`.  Note that the source discards the
boolean returned by `_install_node_requirements`. -/
def install_node (clone : CloneOutcome) (venv : VenvOracle) (fs : FS)
    (comfyDir : FPath) (n : NodeInfo) : Bool × FS × List Ev :=
  let repoUrl := n.repo.getD ""
  let name := n.name.getD (defaultNodeName repoUrl)
  let customNodes := comfyDir ++ ["custom_nodes"]
  let target := customNodes ++ [repoNameOf repoUrl]
  if target ∈ fs then
    (true, fs, [.progress 100 100 (name ++ " already installed")])
  else
    let fs1 := FS.ins customNodes fs
    let tr1 : List Ev :=
      [.progress 0 100 ("Cloning " ++ name ++ "..."), .attempt "git clone"]
    match clone with
    | .fail stderr =>
        (false, fs1,
          tr1 ++ [.progress 0 100 ("Error cloning " ++ name ++ ": " ++ stderr)])
    | .fileNotFound =>
        (false, fs1, tr1 ++ [.progress 0 100 "Error: git not found"])
    | .exc msg =>
        (false, fs1, tr1 ++ [.progress 0 100 ("Error: " ++ msg)])
    | .success hasReq =>
        let fs2 := insertIf hasReq (target ++ ["requirements.txt"])
          (FS.ins target fs1)
        let tr2 := tr1 ++
          [.progress 50 100 ("Installing " ++ name ++ " requirements...")]
        let reqResult := install_node_requirements venv fs2 target
        (true, fs2,
          tr2 ++ reqResult.2 ++
            [.progress 100 100 (name ++ " installed successfully")])

/-!
## `ComfyAPI` (src/core/comfy_api.py)
-/

/-- The Python exceptions the API client can raise to its caller. -/
inductive PyExn where
  | importError (msg : String)
  | connectionError (msg : String)
  | timeoutError (msg : String)
deriving Repr, DecidableEq

/-- Outcome of a `requests` call inside `_get`/`_post`: a response (the
parsed body, `none` when the response has no content), or any
`requests.RequestException` (connection error, timeout, HTTP error from
`raise_for_status`, ...). -/
inductive ReqOutcome where
  | ok (body : Option String)
  | requestError (msg : String)
deriving Repr, DecidableEq

/-- `ComfyAPI._get`: an `Except` value, because the source re-raises — it
catches `RequestException` and raises
`ConnectionError(f"API request failed: {e}")`, and raises `ImportError`
when the `requests` library is unavailable. -/
def comfy_get (reqAvail : Bool) (o : ReqOutcome) :
    Except PyExn (Option String) :=
  if ¬reqAvail then .error (.importError "requests library not available")
  else
    match o with
    | .ok body => .ok body
    | .requestError msg =>
        .error (.connectionError ("API request failed: " ++ msg))

/-- `ComfyAPI._post` has the same shape as `_get`. -/
def comfy_post (reqAvail : Bool) (o : ReqOutcome) :
    Except PyExn (Option String) :=
  comfy_get reqAvail o

/-- The response of `queue_prompt` as far as `execute_workflow` reads it. -/
structure QueueResp where
  promptId : Option String := none
deriving Repr, DecidableEq

/-- `ComfyAPI.execute_workflow`: queues the prompt (any exception from
`queue_prompt`/`_post` propagates uncaught), returns the queue response
when `wait` is false, and otherwise polls; when the poll times out
(`wait_for_prompt` returns `None`) it raises `TimeoutError`.
`timeoutRepr` is Python's rendering of the `timeout` float in the
f-string. -/
def execute_workflow (oQueue : Except PyExn QueueResp)
    (oHistory : Option String) (wait : Bool) (timeoutRepr : String) :
    Except PyExn (QueueResp ⊕ String) :=
  match oQueue with
  | .error e => .error e
  | .ok result =>
      if ¬wait then .ok (.inl result)
      else
        match oHistory with
        | none =>
            .error (.timeoutError
              ("Workflow " ++ result.promptId.getD "None" ++
                " did not complete within " ++ timeoutRepr ++ "s"))
        | some h => .ok (.inr h)

/-!
## Thread-creation catalog (every function defined across src/)

`SrcOp` enumerates every function and method defined in the source tree,
module by module.  `threadsCreated` gives the number of threads the
operation itself creates: `ModelDownloader.download_multiple` drives a
`ThreadPoolExecutor(max_workers)` (which spawns one worker per submitted
task, up to `max_workers`), and `ComfyAPI.connect_websocket` starts one
daemon `threading.Thread` for the listener; no other function in the
sources constructs a thread (`install_tab.py` and `workflow_executor.py`
do import `threading` but never instantiate it).  The GUI handlers delegate
background work to `main_window.run_async`, which is outside the provided
sources (see `runAsyncThreads`).
-/

/-- Modelled from the spec: `main_window.run_async` (its module is not
among the provided sources).  The spec's concurrency section says
concurrency "is limited to a bounded thread pool for parallel file
downloads and a single background thread for a WebSocket listener", so
this GUI helper is modelled as creating no thread. -/
def runAsyncThreads : Nat := 0

/-- `ThreadPoolExecutor`'s default `max_workers` argument of
`download_multiple`. -/
def defaultMaxWorkers : Nat := 3

/-- Every function/method defined in the source files. -/
inductive SrcOp where
  -- core/git_manager.py : GitManager
  | gitInit | gitIsInstalled | gitGetGitExecutable | gitEnsureGitInPath
  | gitDownloadAndSetup | gitDownloadFile | gitRunGit | gitGetGitVersion
  -- core/ffmpeg_manager.py : FfmpegManager
  | ffInit | ffIsInstalled | ffGetFfmpegExecutable | ffGetFfprobeExecutable
  | ffEnsureFfmpegInPath | ffDownloadAndSetup | ffDownloadFile
  | ffGetFfmpegVersion
  -- core/python_manager.py : PythonManager
  | pyInit | pyIsInstalled | pyHasPip | pyPthFile | pyDownloadAndSetup
  | pyDownloadFile | pyConfigurePth | pyBootstrapPip | pyInstallPackage
  | pyInstallRequirements | pySetupTkinter | pyDownloadNuget
  | pyGetPythonVersion
  -- core/model_downloader.py : ModelDownloader
  | mdInit | mdFlattenFilename | mdCheckModelExists | mdGetModelPath
  | mdDownloadModel | mdDownloadHuggingface | mdDownloadDirect
  | mdCleanupHfStructure
  | mdDownloadMultiple (numModels maxWorkers : Nat)
  | mdSearchHuggingface | mdGuessMainFile | mdGuessFolder
  | mdScanLocalModels | mdListAvailableModels | mdGetModelStatus
  -- core/custom_node_manager.py : CustomNodeManager
  | cnInit | cnCustomNodesDir | cnInstallNode | cnInstallNodeRequirements
  | cnRemoveNode | cnListInstalledNodes | cnUpdateNode | cnUpdateAllNodes
  | cnInstallMultiple | cnCheckNodeInstalled | cnGetNodeStatus
  -- core/comfy_api.py : QueueStatus / SystemStats properties
  | apiRunningCount | apiPendingCount | apiTotalCount | apiIsEmpty
  | apiVramTotal | apiVramFree
  -- core/comfy_api.py : ComfyAPI
  | apiInit | apiBaseUrl | apiWsUrl | apiGet | apiPost | apiDelete
  | apiIsAvailable | apiQueuePrompt | apiGetQueue | apiGetQueueRemaining
  | apiClearQueue | apiDeleteQueueItems | apiGetHistory | apiGetHistoryItem
  | apiClearHistory | apiDeleteHistoryItems | apiGetJobs | apiGetJob
  | apiInterrupt | apiFreeMemory | apiGetModelFolders | apiGetModels
  | apiGetModelMetadata | apiGetEmbeddings | apiGetObjectInfo
  | apiGetNodeInfo | apiGetSystemStats | apiGetFeatures | apiViewImage
  | apiUploadImage | apiUploadMask | apiGetExtensions | apiListUserdata
  | apiGetUserdata | apiSaveUserdata | apiDeleteUserdata | apiMoveUserdata
  | apiGetSettings | apiGetSetting | apiUpdateSettings | apiUpdateSetting
  | apiGetWorkflowTemplates | apiGetSubgraphs | apiGetSubgraph | apiGetLogs
  | apiGetFolderPaths | apiListFiles | apiConnectWebsocket
  | apiDisconnectWebsocket | apiOn | apiOff | apiWaitForPrompt
  | apiExecuteWorkflow | apiGetOutputImages
  -- core/workflow_executor.py : WorkflowExecutor / BatchExecutor
  | weInit | weExecute | weConnectWs | weDisconnectWs | weWaitWithWs
  | weUpdateProgress | weCancel | weGetOutputsAsFiles
  | beInit | beExecuteBatch | beCancelAll
  -- ui/install_tab.py : InstallTab
  | uiInit | uiSetupUi | uiOnVramChange | uiGetExtraArgs | uiRefreshStatus
  | uiFullInstall | uiInstallSageAttention | uiUpdateComfyui
  | uiPurgeComfyui | uiUpdateProgress | uiStartServer | uiStopServer
  | uiOpenBrowser | uiShowFirstLaunchHint
  -- data/models_registry.py and data/custom_nodes_registry.py
  | dataGetModelsByCategory | dataGetModelsByModelCategory
  | dataGetAllModelIds | dataGetModelInfo | dataGetNodesByCategory
  | dataGetEssentialNodes | dataGetRecommendedNodes | dataGetNodesByTag
  | dataGetAllNodeIds | dataGetNodeInfo | dataGetAllCategories
  | dataGetAllTags

/-- Number of threads each operation itself creates. -/
def threadsCreated : SrcOp → Nat
  | .mdDownloadMultiple numModels maxWorkers => min numModels maxWorkers
  | .apiConnectWebsocket => 1
  | .uiFullInstall => runAsyncThreads
  | .uiInstallSageAttention => runAsyncThreads
  | .uiUpdateComfyui => runAsyncThreads
  | .uiPurgeComfyui => runAsyncThreads
  | .uiStartServer => runAsyncThreads
  | .uiStopServer => runAsyncThreads
  | _ => 0

/-- Whether the thread the operation starts is a daemon thread
(`threading.Thread(target=_run, daemon=True)` in `connect_websocket`). -/
def spawnsDaemonThread : SrcOp → Bool
  | .apiConnectWebsocket => true
  | _ => false

/-!
## Helper lemmas
-/

theorem FS.mem_ins {a p : FPath} {fs : FS} :
    a ∈ FS.ins p fs ↔ a = p ∨ a ∈ fs := by
  unfold FS.ins
  split
  · rename_i h
    exact ⟨.inr, fun | .inl rfl => h | .inr h2 => h2⟩
  · exact List.mem_cons

theorem FS.mem_del {a p : FPath} {fs : FS} :
    a ∈ FS.del p fs ↔ a ∈ fs ∧ ¬ a = p := by
  unfold FS.del
  simp only [List.mem_filter, decide_eq_true_eq]
  exact and_congr_right fun _ => ⟨fun h h2 => h h2.symm, fun h h2 => h h2.symm⟩

theorem mem_removeTree {a dir : FPath} {fs : FS} :
    a ∈ removeTree dir fs ↔ a ∈ fs ∧ ¬ dir <+: a := by
  unfold removeTree
  simp only [List.mem_filter, decide_eq_true_eq]

theorem mem_insertIf {c : Bool} {p a : FPath} {fs : FS} :
    a ∈ insertIf c p fs ↔ (c = true ∧ a = p) ∨ a ∈ fs := by
  cases c <;> simp [insertIf, FS.mem_ins]

theorem FS.seteq_iff {a b : FS} :
    FS.seteq a b = true ↔ ∀ p, p ∈ a ↔ p ∈ b := by
  unfold FS.seteq
  simp only [Bool.and_eq_true, List.all_eq_true, decide_eq_true_eq]
  exact ⟨fun h p => ⟨fun hp => h.1 p hp, fun hp => h.2 p hp⟩,
    fun h => ⟨fun p hp => (h p).1 hp, fun p hp => (h p).2 hp⟩⟩

/-- The external steps attempted during a run, in order. -/
def attemptSteps (tr : List Ev) : List Ev :=
  tr.filter fun e => match e with | .attempt _ => true | _ => false

/-- A run never retries: no external step is attempted twice. -/
def neverRetries (tr : List Ev) : Prop := (attemptSteps tr).Nodup

theorem attemptSteps_append (a b : List Ev) :
    attemptSteps (a ++ b) = attemptSteps a ++ attemptSteps b :=
  List.filter_append ..

theorem errorReports_append (a b : List Ev) :
    errorReports (a ++ b) = errorReports a + errorReports b := by
  unfold errorReports
  rw [List.filter_append, List.length_append]

theorem errorReports_dlLoopEvents (mult : Nat) (label : String)
    (total : Nat) : ∀ (chunks : List Nat) (d : Nat),
    errorReports (dlLoopEvents mult label total d chunks) = 0 := by
  intro chunks
  induction chunks with
  | nil => intro d; rfl
  | cons c rest ih =>
      intro d
      unfold dlLoopEvents
      by_cases h : 0 < total <;>
        simp only [h, if_true, if_false, reduceIte] <;>
        rw [errorReports_append, ih] <;> rfl

theorem attemptSteps_dlLoopEvents (mult : Nat) (label : String)
    (total : Nat) : ∀ (chunks : List Nat) (d : Nat),
    attemptSteps (dlLoopEvents mult label total d chunks) = [] := by
  intro chunks
  induction chunks with
  | nil => intro d; rfl
  | cons c rest ih =>
      intro d
      unfold dlLoopEvents
      by_cases h : 0 < total <;>
        simp only [h, if_true, if_false, reduceIte] <;>
        rw [attemptSteps_append, ih] <;> rfl

theorem errorReports_cons (e : Ev) (tr : List Ev) :
    errorReports (e :: tr) = (if isErrorEv e then 1 else 0) + errorReports tr := by
  unfold errorReports
  rw [List.filter_cons]
  by_cases h : isErrorEv e <;> simp [h, Nat.add_comm]

theorem attemptSteps_cons_progress (c t : Int) (m : String) (tr : List Ev) :
    attemptSteps (.progress c t m :: tr) = attemptSteps tr := rfl

theorem attemptSteps_cons_attempt (s : String) (tr : List Ev) :
    attemptSteps (.attempt s :: tr) = .attempt s :: attemptSteps tr := rfl

theorem isErrorEv_downloading (c t : Int) (s : String) :
    isErrorEv (.progress c t ("Downloading " ++ s)) = false := rfl

theorem errorReports_directLoopEvents (filename : String) (total : Nat) :
    ∀ (chunks : List Nat) (d : Nat) (last : Int),
    errorReports (directLoopEvents filename total d last chunks) = 0 := by
  intro chunks
  induction chunks with
  | nil => intro d last; rfl
  | cons c rest ih =>
      intro d last
      rw [directLoopEvents]
      simp only []
      by_cases h : 0 < total
      · rw [if_pos h]
        by_cases h2 : ((((d + c) * 100) / total : Nat) : Int) ≠ last
        · rw [if_pos h2, errorReports_cons]
          simp only [String.append_assoc, isErrorEv_downloading,
            Bool.false_eq_true, if_false, Nat.zero_add]
          exact ih ..
        · rw [if_neg h2]
          exact ih ..
      · rw [if_neg h]
        exact ih ..

theorem attemptSteps_directLoopEvents (filename : String) (total : Nat) :
    ∀ (chunks : List Nat) (d : Nat) (last : Int),
    attemptSteps (directLoopEvents filename total d last chunks) = [] := by
  intro chunks
  induction chunks with
  | nil => intro d last; rfl
  | cons c rest ih =>
      intro d last
      rw [directLoopEvents]
      simp only []
      by_cases h : 0 < total
      · rw [if_pos h]
        by_cases h2 : ((((d + c) * 100) / total : Nat) : Int) ≠ last
        · rw [if_pos h2, attemptSteps_cons_progress]
          exact ih ..
        · rw [if_neg h2]
          exact ih ..
      · rw [if_neg h]
        exact ih ..

/-!
## Claim C8: `check_model_exists` vs `get_model_path`
-/

/-- Claim C8: whenever `check_model_exists` returns `True`,
`get_model_path` returns a path that exists; and when both the flattened
and the nested candidate paths exist, `get_model_path` returns the
flattened one. -/
theorem check_model_exists_get_model_path (fs : FS) (modelsDir : FPath)
    (m : ModelInfo) :
    (check_model_exists fs modelsDir m = true →
      get_model_path fs modelsDir m ∈ fs)
    ∧ (modelPathFlat modelsDir m ∈ fs → modelPathNested modelsDir m ∈ fs →
      get_model_path fs modelsDir m = modelPathFlat modelsDir m) := by
  constructor
  · intro h
    unfold check_model_exists at h
    unfold get_model_path
    by_cases hf : modelPathFlat modelsDir m ∈ fs
    · simp [hf]
    · by_cases hn : modelPathNested modelsDir m ∈ fs
      · simp [hf, hn]
      · simp [hf, hn] at h
  · intro hf _
    unfold get_model_path
    simp [hf]

/-- Witness for C8 at a concrete filesystem holding both candidates. -/
theorem check_model_exists_get_model_path_witness :
    get_model_path
        [["models", "vae", "m.safetensors"],
         ["models", "vae", "sub", "m.safetensors"]]
        ["models"] ⟨none, none, some "sub/m.safetensors", some "vae",
          none, none⟩ ∈
      [["models", "vae", "m.safetensors"],
       ["models", "vae", "sub", "m.safetensors"]]
    ∧ get_model_path
        [["models", "vae", "m.safetensors"],
         ["models", "vae", "sub", "m.safetensors"]]
        ["models"] ⟨none, none, some "sub/m.safetensors", some "vae",
          none, none⟩ =
      modelPathFlat ["models"] ⟨none, none, some "sub/m.safetensors",
        some "vae", none, none⟩ :=
  ⟨(check_model_exists_get_model_path _ _ _).1 (by decide),
   (check_model_exists_get_model_path _ _ _).2 (by decide) (by decide)⟩

/-!
## Claim C9: `get_model_status`
-/

/-- Claim C9: `get_model_status` returns `"installed"` exactly when
`check_model_exists` holds, `"missing"` otherwise, and never returns
`"downloading"`. -/
theorem get_model_status_spec (fs : FS) (modelsDir : FPath) (m : ModelInfo) :
    (get_model_status fs modelsDir m = "installed" ↔
      check_model_exists fs modelsDir m = true)
    ∧ (check_model_exists fs modelsDir m = false →
      get_model_status fs modelsDir m = "missing")
    ∧ get_model_status fs modelsDir m ≠ "downloading" := by
  unfold get_model_status
  by_cases h : check_model_exists fs modelsDir m <;> simp [h]

/-- Witness for C9 at an empty filesystem. -/
theorem get_model_status_spec_witness :
    get_model_status [] ["models"] ⟨none, none, some "f", some "vae",
      none, none⟩ = "missing" :=
  (get_model_status_spec [] ["models"] _).2.1 (by decide)

/-!
## Claim C3: `run_git`
-/

/-- Claim C3: `run_git` returns `(True, stdout)` exactly when the spawned
git subprocess exits with code zero, and `(False, stderr)` or
`(False, error message)` in every other case, including a missing git
executable. -/
theorem run_git_spec (o : ProcOutcome) :
    ((run_git o).1.1 = true ↔ ∃ out err, o = .completed 0 out err)
    ∧ (∀ rc out err, o = .completed rc out err →
        (run_git o).1 = if rc = 0 then (true, out) else (false, err))
    ∧ (o = .fileNotFound → (run_git o).1 = (false, gitNotFoundMsg))
    ∧ (∀ msg, o = .exc msg → (run_git o).1 = (false, msg)) := by
  refine ⟨?_, ?_, ?_, ?_⟩
  · cases o with
    | completed rc out err =>
        by_cases h : rc = 0
        · subst h
          simp [run_git]
        · have hfalse : (run_git (.completed rc out err)).1.1 = false := by
            simp only [run_git]
            rw [if_pos h]
          rw [hfalse]
          constructor
          · intro hh
            cases hh
          · rintro ⟨o2, e2, heq⟩
            cases heq
            exact absurd rfl h
    | fileNotFound => simp [run_git]
    | exc msg => simp [run_git]
  · rintro rc out err rfl
    by_cases h : rc = 0 <;> simp [run_git, h]
  · rintro rfl
    rfl
  · rintro msg rfl
    rfl

/-- Witness for C3 at two concrete outcomes. -/
theorem run_git_spec_witness :
    (run_git (.completed 0 "ok" "")).1 = (true, "ok")
    ∧ (run_git (.completed 128 "" "fatal: repository not found")).1 =
        (false, "fatal: repository not found")
    ∧ (run_git .fileNotFound).1 = (false, gitNotFoundMsg) :=
  ⟨by
      have := (run_git_spec (.completed 0 "ok" "")).2.1 0 "ok" "" rfl
      simpa using this,
   by
      have := (run_git_spec (.completed 128 "" "fatal: repository not found")
        ).2.1 128 "" "fatal: repository not found" rfl
      simpa using this,
   (run_git_spec .fileNotFound).2.2.1 rfl⟩

/-!
## Claim C6: `list_available_models`
-/

/-- Claim C6: for every category string, `list_available_models` returns
exactly the `MODELS` registry entries whose `folder` equals the category
-- each one the registry record unchanged except extended with its
registry key under `id` -- and no other entries. -/
theorem list_available_models_spec (category : String) :
    (∀ e ∈ list_available_models category,
      ∃ mid rec, (mid, rec) ∈ MODELS ∧ rec.folder = category ∧
        e.toModelRecord = rec ∧ e.id = mid)
    ∧ (∀ mid rec, (mid, rec) ∈ MODELS → rec.folder = category →
      (⟨rec, mid⟩ : ModelEntry) ∈ list_available_models category) := by
  constructor
  · intro e he
    unfold list_available_models at he
    rw [List.mem_filterMap] at he
    obtain ⟨⟨mid, rec⟩, hmem, hf⟩ := he
    by_cases hcat : rec.folder = category
    · rw [if_pos hcat] at hf
      cases hf
      exact ⟨mid, rec, hmem, hcat, rfl, rfl⟩
    · rw [if_neg hcat] at hf
      cases hf
  · intro mid rec hmem hcat
    unfold list_available_models
    rw [List.mem_filterMap]
    exact ⟨(mid, rec), hmem, by rw [if_pos hcat]⟩

/-- Witness for C6: the `sdxl_vae` registry entry is listed under the
`"vae"` category, extended with its key. -/
theorem list_available_models_spec_witness :
    (⟨⟨"SDXL VAE (335MB)", some "stabilityai/sdxl-vae",
        "sdxl_vae.safetensors", "vae", "0.33", "sdxl", none, none⟩,
      "sdxl_vae"⟩ : ModelEntry) ∈ list_available_models "vae" :=
  (list_available_models_spec "vae").2 "sdxl_vae"
    ⟨"SDXL VAE (335MB)", some "stabilityai/sdxl-vae",
      "sdxl_vae.safetensors", "vae", "0.33", "sdxl", none, none⟩
    (by decide) (by decide)

/-!
## Claim C10: progress arithmetic of `GitManager._download_file`
-/

/-- `int(d / t * mult)`, the truncation the read loops compute, equals the
natural division `d * mult / t`. -/
theorem floor_div_mul (d t mult : Nat) :
    ⌊(d : ℚ) / (t : ℚ) * (mult : ℚ)⌋ = Int.ofNat ((d * mult) / t) := by
  rw [div_mul_eq_mul_div, ← Nat.cast_mul, Rat.floor_natCast_div_natCast]
  exact (Int.ofNat_div ..).symm

/-- Every event of a manager download loop reports
`downloaded * mult / total + 5` out of 100, where `downloaded` is the sum
of a nonempty prefix of the chunks read so far; events are only emitted
when `total > 0`. -/
theorem dlLoopEvents_mem (mult : Nat) (label : String) (total : Nat) :
    ∀ (chunks : List Nat) (d0 : Nat) (e : Ev),
      e ∈ dlLoopEvents mult label total d0 chunks →
      0 < total ∧ ∃ d msg,
        (∃ k, 0 < k ∧ k ≤ chunks.length ∧ d = d0 + (chunks.take k).sum)
        ∧ e = .progress ((d * mult) / total + 5 : Nat) 100 msg := by
  intro chunks
  induction chunks with
  | nil =>
      intro d0 e he
      simp [dlLoopEvents] at he
  | cons c rest ih =>
      intro d0 e he
      rw [dlLoopEvents] at he
      by_cases h : 0 < total
      · rw [if_pos h] at he
        rcases List.mem_append.1 he with hin | hin
        · rcases List.mem_singleton.1 hin with rfl
          exact ⟨h, d0 + c, _, ⟨1, Nat.one_pos, by simp, by simp⟩, rfl⟩
        · obtain ⟨ht, d, msg, ⟨k, hk0, hkle, hd⟩, hev⟩ := ih (d0 + c) e hin
          refine ⟨ht, d, msg, ⟨k + 1, Nat.succ_pos k, ?_, ?_⟩, hev⟩
          · simpa using Nat.succ_le_succ hkle
          · rw [hd, List.take_succ_cons, List.sum_cons]
            omega
      · rw [if_neg h] at he
        obtain ⟨ht, _⟩ := ih (d0 + c) e (by simpa using he)
        exact absurd ht h

/-- Claim C10: every progress-callback invocation inside
`GitManager._download_file`'s read loop passes a total of 100 and a
current value of `floor(downloaded / total_size * 75) + 5`, where
`downloaded` is the byte count read so far, and that value lies between 5
and 80 inclusive whenever `0 < downloaded ≤ total_size`. -/
theorem git_download_file_progress (total : Nat) (chunks : List Nat) :
    ∀ e ∈ dlLoopEvents 75 "Git" total 0 chunks,
      ∃ d msg,
        (∃ k, 0 < k ∧ k ≤ chunks.length ∧ d = (chunks.take k).sum)
        ∧ e = .progress (⌊(d : ℚ) / (total : ℚ) * 75⌋ + 5) 100 msg
        ∧ (0 < d → d ≤ total →
            5 ≤ ⌊(d : ℚ) / (total : ℚ) * 75⌋ + 5 ∧
              ⌊(d : ℚ) / (total : ℚ) * 75⌋ + 5 ≤ 80) := by
  intro e he
  obtain ⟨ht, d, msg, ⟨k, hk0, hkle, hd⟩, hev⟩ :=
    dlLoopEvents_mem 75 "Git" total chunks 0 e he
  refine ⟨d, msg, ⟨k, hk0, hkle, by simpa using hd⟩, ?_, ?_⟩
  · rw [hev]
    have : ((75 : ℚ)) = ((75 : Nat) : ℚ) := by norm_num
    rw [this, floor_div_mul d total 75]
    norm_num
  · intro _ hdle
    have hfl : ⌊(d : ℚ) / (total : ℚ) * 75⌋ = Int.ofNat ((d * 75) / total) := by
      have : ((75 : ℚ)) = ((75 : Nat) : ℚ) := by norm_num
      rw [this, floor_div_mul d total 75]
    constructor
    · rw [hfl]
      have h0 : (0 : ℤ) ≤ Int.ofNat ((d * 75) / total) := Int.ofNat_nonneg _
      linarith
    · rw [hfl]
      have hle : (d * 75) / total ≤ 75 := by
        calc (d * 75) / total ≤ (total * 75) / total :=
              Nat.div_le_div_right (Nat.mul_le_mul_right 75 hdle)
          _ = 75 := Nat.mul_div_cancel_left 75 ht
      have hle2 : Int.ofNat ((d * 75) / total) ≤ Int.ofNat 75 :=
        Int.ofNat_le.2 hle
      have h75 : (Int.ofNat 75 : ℤ) = 75 := rfl
      linarith [hle2, h75.le, h75.ge]

/-- Witness for C10: the first loop event of a two-chunk download. -/
theorem git_download_file_progress_witness :
    ∃ d msg,
      (∃ k, 0 < k ∧ k ≤ ([65536, 65536] : List Nat).length ∧
        d = (([65536, 65536] : List Nat).take k).sum)
      ∧ (Ev.progress 42 100 "Downloading Git... 0/0 MB") =
          .progress (⌊(d : ℚ) / ((131072 : Nat) : ℚ) * 75⌋ + 5) 100 msg
      ∧ (0 < d → d ≤ 131072 →
          5 ≤ ⌊(d : ℚ) / ((131072 : Nat) : ℚ) * 75⌋ + 5 ∧
            ⌊(d : ℚ) / ((131072 : Nat) : ℚ) * 75⌋ + 5 ≤ 80) :=
  git_download_file_progress 131072 [65536, 65536]
    (Ev.progress 42 100 "Downloading Git... 0/0 MB") (by decide)

/-!
## Claim C2: `download_model` result vs file existence
-/

/-- Claim C2: `download_model` returns `True` only if the model file exists
at the target folder afterwards (under its given filename or its flattened
filename), and returns `False` whenever no such file exists afterwards. -/
theorem download_model_file_exists (reqAvail hfAvail : Bool)
    (oDirect : DirectOutcome) (oHf : HfOutcome) (fs : FS)
    (modelsDir : FPath) (m : ModelInfo) :
    ((download_model reqAvail hfAvail oDirect oHf fs modelsDir m).1 = true →
      modelPathNested modelsDir m ∈
          (download_model reqAvail hfAvail oDirect oHf fs modelsDir m).2.1 ∨
        modelPathFlat modelsDir m ∈
          (download_model reqAvail hfAvail oDirect oHf fs modelsDir m).2.1)
    ∧ ((modelPathNested modelsDir m ∉
          (download_model reqAvail hfAvail oDirect oHf fs modelsDir m).2.1 ∧
        modelPathFlat modelsDir m ∉
          (download_model reqAvail hfAvail oDirect oHf fs modelsDir m).2.1) →
      (download_model reqAvail hfAvail oDirect oHf fs modelsDir m).1 =
        false) := by
  unfold download_model
  by_cases hc : check_model_exists fs modelsDir m
  · rw [if_pos hc]
    unfold check_model_exists at hc
    rcases Bool.or_eq_true_iff.1 hc with h | h
    · exact ⟨fun _ => .inl (of_decide_eq_true h),
        fun hno => absurd (of_decide_eq_true h) hno.1⟩
    · exact ⟨fun _ => .inr (of_decide_eq_true h),
        fun hno => absurd (of_decide_eq_true h) hno.2⟩
  · rw [if_neg hc]
    by_cases hurl : m.url.isSome
    · rw [if_pos hurl]
      cases oDirect with
      | raise msg wrotePart =>
          by_cases hreq : reqAvail <;>
            simp [download_direct, hreq]
      | success chunks total =>
          by_cases hreq : reqAvail
          · simp only [download_direct, hreq, not_true, if_false, reduceIte]
            constructor
            · intro h
              exact .inl (of_decide_eq_true h)
            · intro hno
              exact decide_eq_false hno.1
          · simp [download_direct, hreq]
    · rw [if_neg hurl]
      by_cases hrepo : m.repo.isSome && hfAvail
      · rw [if_pos hrepo]
        cases oHf with
        | raise msg => simp [download_huggingface]
        | success =>
            simp only [download_huggingface]
            constructor
            · intro h
              exact .inr (of_decide_eq_true h)
            · intro hno
              exact decide_eq_false hno.2
      · rw [if_neg hrepo]
        exact ⟨fun h => absurd h Bool.false_ne_true, fun _ => rfl⟩

/-- Witness for C2: a successful direct download of a concrete model. -/
theorem download_model_file_exists_witness :
    modelPathNested ["models"]
        ⟨some "n", none, some "f.bin", some "checkpoints", none,
          some "http://host/f.bin"⟩ ∈
      (download_model true true (.success [4096] 4096) .success []
        ["models"]
        ⟨some "n", none, some "f.bin", some "checkpoints", none,
          some "http://host/f.bin"⟩).2.1
    ∨ modelPathFlat ["models"]
        ⟨some "n", none, some "f.bin", some "checkpoints", none,
          some "http://host/f.bin"⟩ ∈
      (download_model true true (.success [4096] 4096) .success []
        ["models"]
        ⟨some "n", none, some "f.bin", some "checkpoints", none,
          some "http://host/f.bin"⟩).2.1 :=
  (download_model_file_exists true true (.success [4096] 4096) .success []
    ["models"] _).1 (by decide)

/-!
## Claim C1: error handling
-/

/-- Counterexample to claim C1 ("no operation propagates an exception to
the caller"): `ComfyAPI._get`, at a concrete failed request, catches the
`RequestException` and then raises `ConnectionError` to its caller
(modelled as an `Except.error` result) instead of returning a
boolean/None. -/
theorem comfy_get_propagates_exception :
    comfy_get true (.requestError "Connection refused") =
      .error (.connectionError "API request failed: Connection refused") :=
  rfl

/-- Claim C1 (amended): the installer/manager operations catch exceptions,
format a message, and return a boolean result to the caller —
`install_node` turns any exception into `False` plus an `"Error: ..."`
report, `run_git` returns `(False, str(e))` — but the `ComfyAPI`
operations propagate exceptions instead: `_get`/`_post` raise
`ConnectionError` when the HTTP request fails and `ImportError` when the
`requests` library is missing, and `execute_workflow` propagates
exceptions from `queue_prompt` and raises `TimeoutError` when a waited
workflow does not complete in time. -/
theorem error_handling_mixed :
    (∀ msg, comfy_get true (.requestError msg) =
      .error (.connectionError ("API request failed: " ++ msg)))
    ∧ (∀ o, comfy_get false o =
      .error (.importError "requests library not available"))
    ∧ (∀ msg, comfy_post true (.requestError msg) =
      .error (.connectionError ("API request failed: " ++ msg)))
    ∧ (∀ e oHist w t, execute_workflow (.error e) oHist w t = .error e)
    ∧ (∀ qr t, execute_workflow (.ok qr) none true t =
      .error (.timeoutError ("Workflow " ++ qr.promptId.getD "None" ++
        " did not complete within " ++ t ++ "s")))
    ∧ (∀ msg venv fs comfyDir n,
        comfyDir ++ ["custom_nodes"] ++ [repoNameOf (n.repo.getD "")] ∉ fs →
        (install_node (.exc msg) venv fs comfyDir n).1 = false ∧
          Ev.progress 0 100 ("Error: " ++ msg) ∈
            (install_node (.exc msg) venv fs comfyDir n).2.2)
    ∧ (∀ msg, (run_git (.exc msg)).1 = (false, msg)) := by
  refine ⟨fun msg => rfl, fun o => ?_, fun msg => rfl, fun e oH w t => rfl,
    fun qr t => rfl, fun msg venv fs comfyDir n hnot => ?_, fun msg => rfl⟩
  · cases o <;> rfl
  · have : comfyDir ++ ["custom_nodes"] ++ [repoNameOf (n.repo.getD "")] =
        (comfyDir ++ ["custom_nodes"]) ++ [repoNameOf (n.repo.getD "")] :=
      rfl
    unfold install_node
    rw [if_neg (this ▸ hnot)]
    exact ⟨rfl, by simp⟩

/-- Witness for the amended claim C1, at a concrete failing
`install_node` call. -/
theorem error_handling_mixed_witness :
    (install_node (.exc "boom") ⟨true, true, ""⟩ [] ["comfy"]
      ⟨none, none, none⟩).1 = false
    ∧ Ev.progress 0 100 ("Error: " ++ "boom") ∈
      (install_node (.exc "boom") ⟨true, true, ""⟩ [] ["comfy"]
        ⟨none, none, none⟩).2.2 :=
  error_handling_mixed.2.2.2.2.2.1 "boom" ⟨true, true, ""⟩ [] ["comfy"]
    ⟨none, none, none⟩ (by decide)

/-!
## Claim C5: failure semantics "retry never, report once"
-/

theorem splitSlashAux_ne_nil : ∀ (l acc : List Char), splitSlashAux l acc ≠ [] := by
  intro l
  induction l with
  | nil => intro acc; simp [splitSlashAux]
  | cons c rest ih =>
      intro acc
      unfold splitSlashAux
      by_cases h : c = '/'
      · rw [if_pos h]
        simp
      · rw [if_neg h]
        exact ih _

theorem splitPath_ne_nil (s : String) : splitPath s ≠ [] :=
  splitSlashAux_ne_nil s.data []

theorem lastComp_append (a b : FPath) (hb : b ≠ []) :
    lastComp (a ++ b) = lastComp b := by
  unfold lastComp
  rw [List.getLastD_eq_getLast?, List.getLastD_eq_getLast?,
    List.getLast?_append_of_ne_nil a hb]

/-- One cleanup move preserves "the downloaded file is still at its
download path, or already at its final flattened path". -/
theorem cleanupMove_inv (target dp final : FPath)
    (hfin : final = target ++ [lastComp dp])
    (hfinlen : final.length = target.length + 1)
    (q : FPath) (fs : FS) (h : dp ∈ fs ∨ final ∈ fs) :
    dp ∈ cleanupMove target fs q ∨ final ∈ cleanupMove target fs q := by
  unfold cleanupMove
  split
  · rename_i hcond
    obtain ⟨hpre, hlen, hqfs⟩ := hcond
    by_cases hdest : target ++ [lastComp q] ∈ fs
    · rw [if_pos hdest]
      exact h
    · rw [if_neg hdest]
      rcases h with hdp | hfin2
      · by_cases hq : q = dp
        · subst hq
          right
          rw [FS.mem_ins]
          exact .inl hfin
        · left
          rw [FS.mem_ins, FS.mem_del]
          exact .inr ⟨hdp, fun hc => hq (hc.symm ▸ rfl)⟩
      · right
        rw [FS.mem_ins, FS.mem_del]
        refine .inr ⟨hfin2, fun hc => ?_⟩
        rw [hc] at hfinlen
        omega
  · exact h

theorem foldl_cleanupMove_inv (target dp final : FPath)
    (hfin : final = target ++ [lastComp dp])
    (hfinlen : final.length = target.length + 1) :
    ∀ (l : List FPath) (fs : FS), (dp ∈ fs ∨ final ∈ fs) →
      dp ∈ l.foldl (cleanupMove target) fs ∨
        final ∈ l.foldl (cleanupMove target) fs := by
  intro l
  induction l with
  | nil => intro fs h; exact h
  | cons q rest ih =>
      intro fs h
      exact ih _ (cleanupMove_inv target dp final hfin hfinlen q fs h)

theorem cleanup_hf_structure_inv (target dp final : FPath)
    (hfin : final = target ++ [lastComp dp])
    (hfinlen : final.length = target.length + 1)
    (fs : FS) (h : dp ∈ fs ∨ final ∈ fs) :
    dp ∈ cleanup_hf_structure target fs ∨
      final ∈ cleanup_hf_structure target fs := by
  unfold cleanup_hf_structure
  generalize model_extensions = exts
  induction exts generalizing fs with
  | nil => exact h
  | cons ext rest ih =>
      rw [List.foldl_cons]
      exact ih _ (foldl_cleanupMove_inv target dp final hfin hfinlen _ fs h)

/-- In the `hf_hub_download` success case, the cleanup/move code always
leaves the file at the flattened final path, so `_download_huggingface`
returns `True`. -/
theorem download_huggingface_success (fs : FS) (modelsDir : FPath)
    (m : ModelInfo) :
    (download_huggingface .success fs modelsDir m).1 = true ∧
      modelPathFlat modelsDir m ∈
        (download_huggingface .success fs modelsDir m).2.1 := by
  have hsplit : splitPath m.getFilename ≠ [] := splitPath_ne_nil _
  have hlast : lastComp (hfDownloadedPath modelsDir m) =
      flatten_filename m.getFilename := by
    have h1 : hfDownloadedPath modelsDir m =
        (modelsDir ++ [m.getFolder] ++
          (match m.subfolder with | some s => splitPath s | none => [])) ++
          splitPath m.getFilename := rfl
    rw [h1, lastComp_append _ _ hsplit]
    unfold lastComp flatten_filename
    rfl
  have hfin : modelPathFlat modelsDir m =
      (modelsDir ++ [m.getFolder]) ++ [lastComp (hfDownloadedPath modelsDir m)] := by
    rw [hlast]
    unfold modelPathFlat
    rw [List.append_assoc]
  have hfinlen : (modelPathFlat modelsDir m).length =
      (modelsDir ++ [m.getFolder]).length + 1 := by
    rw [hfin]
    simp
  unfold download_huggingface
  simp only []
  have hP : hfDownloadedPath modelsDir m ∈
      FS.ins (hfDownloadedPath modelsDir m)
        (FS.ins (modelsDir ++ [m.getFolder]) fs) ∨
      modelPathFlat modelsDir m ∈
        FS.ins (hfDownloadedPath modelsDir m)
          (FS.ins (modelsDir ++ [m.getFolder]) fs) := by
    left
    rw [FS.mem_ins]
    exact .inl rfl
  have hP3 := cleanup_hf_structure_inv (modelsDir ++ [m.getFolder])
    (hfDownloadedPath modelsDir m) (modelPathFlat modelsDir m) hfin hfinlen
    _ hP
  set fs3 := cleanup_hf_structure (modelsDir ++ [m.getFolder])
    (FS.ins (hfDownloadedPath modelsDir m)
      (FS.ins (modelsDir ++ [m.getFolder]) fs)) with hfs3
  by_cases hcond : modelPathFlat modelsDir m ∉ fs3 ∧
      hfDownloadedPath modelsDir m ∈ fs3
  · rw [if_pos hcond]
    have hmem : modelPathFlat modelsDir m ∈
        FS.ins (modelPathFlat modelsDir m)
          (FS.del (hfDownloadedPath modelsDir m) fs3) := by
      rw [FS.mem_ins]
      exact .inl rfl
    exact ⟨decide_eq_true hmem, hmem⟩
  · rw [if_neg hcond]
    have hmem : modelPathFlat modelsDir m ∈ fs3 := by
      by_cases hfl : modelPathFlat modelsDir m ∈ fs3
      · exact hfl
      · rcases hP3 with hdp | hfl2
        · exact absurd ⟨hfl, hdp⟩ hcond
        · exact hfl2
    exact ⟨decide_eq_true hmem, hmem⟩

/-- Counterexample to claim C5 ("report once, then return False"): a
concrete `install_node` run whose `pip install` step fails — the failure
is reported exactly once through the callback, but `install_node`
discards the result of `_install_node_requirements` and returns `True`,
not `False`. -/
theorem install_node_ignores_requirements_failure :
    (install_node (.success true) ⟨true, false, "pip failed"⟩ [] ["comfy"]
      ⟨some "https://github.com/a/b.git", some "B", none⟩).1 = true
    ∧ errorReports (install_node (.success true) ⟨true, false, "pip failed"⟩
        [] ["comfy"]
        ⟨some "https://github.com/a/b.git", some "B", none⟩).2.2 = 1 := by
  decide

theorem install_node_neverRetries (clone : CloneOutcome) (venv : VenvOracle)
    (fs : FS) (comfyDir : FPath) (n : NodeInfo) :
    neverRetries (install_node clone venv fs comfyDir n).2.2 := by
  unfold install_node
  by_cases ht : (comfyDir ++ ["custom_nodes"]) ++ [repoNameOf (n.repo.getD "")] ∈ fs
  · rw [if_pos ht]
    exact List.nodup_nil
  · rw [if_neg ht]
    cases clone with
    | fail stderr => exact List.nodup_singleton _
    | fileNotFound => exact List.nodup_singleton _
    | exc msg => exact List.nodup_singleton _
    | success hasReq =>
        simp only [install_node_requirements, venv_install_requirements]
        by_cases h1 : ((comfyDir ++ ["custom_nodes"]) ++
            [repoNameOf (n.repo.getD "")]) ++ ["requirements.txt"] ∉
            insertIf hasReq (((comfyDir ++ ["custom_nodes"]) ++
              [repoNameOf (n.repo.getD "")]) ++ ["requirements.txt"])
              (FS.ins ((comfyDir ++ ["custom_nodes"]) ++
                [repoNameOf (n.repo.getD "")])
                (FS.ins (comfyDir ++ ["custom_nodes"]) fs))
    -- the three inner branches of `_install_node_requirements`
        · rw [if_pos h1]
          exact (by decide : List.Nodup [Ev.attempt "git clone"])
        · rw [if_neg h1]
          by_cases h2 : ¬venv.venvCreated = true
          · rw [if_pos h2]
            exact (by decide : List.Nodup [Ev.attempt "git clone"])
          · rw [if_neg h2]
            by_cases h3 : venv.reqInstallOk = true
            · rw [if_pos h3]
              exact (by decide : List.Nodup
                [Ev.attempt "git clone", Ev.attempt "pip install requirements"])
            · rw [if_neg h3]
              exact (by decide : List.Nodup
                [Ev.attempt "git clone", Ev.attempt "pip install requirements"])

theorem install_node_false_reports_once (clone : CloneOutcome)
    (venv : VenvOracle) (fs : FS) (comfyDir : FPath) (n : NodeInfo)
    (h : (install_node clone venv fs comfyDir n).1 = false) :
    errorReports (install_node clone venv fs comfyDir n).2.2 = 1 := by
  unfold install_node at h ⊢
  by_cases ht : (comfyDir ++ ["custom_nodes"]) ++ [repoNameOf (n.repo.getD "")] ∈ fs
  · rw [if_pos ht] at h
    simp at h
  · rw [if_neg ht] at h ⊢
    cases clone with
    | fail stderr => rfl
    | fileNotFound => rfl
    | exc msg => rfl
    | success hasReq => simp at h

theorem git_setup_neverRetries (o : GitSetupOracle) (fs : FS)
    (baseDir : FPath) :
    neverRetries (git_download_and_setup o fs baseDir).2.2 := by
  unfold git_download_and_setup
  by_cases hin : (baseDir ++ ["git_portable"]) ++ ["cmd", "git.exe"] ∈ fs
  · rw [if_pos hin]
    exact List.nodup_nil
  · rw [if_neg hin]
    rcases o with ⟨dl, extract, hasExe⟩
    cases dl with
    | raise msg wrotePart => exact List.nodup_singleton _
    | success chunks total =>
        cases extract with
        | some msg =>
            unfold neverRetries
            simp only [attemptSteps_append, attemptSteps_dlLoopEvents,
              List.append_nil, List.nil_append]
            exact (by decide : List.Nodup [Ev.attempt "download MinGit"])
        | none =>
            unfold neverRetries
            simp only [attemptSteps_append, attemptSteps_dlLoopEvents,
              List.append_nil, List.nil_append]
            exact (by decide : List.Nodup [Ev.attempt "download MinGit"])

theorem git_setup_false_reports_once (o : GitSetupOracle) (fs : FS)
    (baseDir : FPath)
    (h : (git_download_and_setup o fs baseDir).1 = false) :
    errorReports (git_download_and_setup o fs baseDir).2.2 = 1 := by
  unfold git_download_and_setup at h ⊢
  by_cases hin : (baseDir ++ ["git_portable"]) ++ ["cmd", "git.exe"] ∈ fs
  · rw [if_pos hin] at h
    simp at h
  · rw [if_neg hin] at h ⊢
    rcases o with ⟨dl, extract, hasExe⟩
    cases dl with
    | raise msg wrotePart => rfl
    | success chunks total =>
        cases extract with
        | some msg =>
            simp only [errorReports_append, errorReports_dlLoopEvents]
            rfl
        | none => simp at h

theorem errorReports_block (tr0 mid tr1 tail : List Ev)
    (h0 : errorReports tr0 = 0) (hm : errorReports mid = 0)
    (h1 : errorReports tr1 = 0) :
    errorReports ((tr0 ++ mid ++ tr1) ++ tail) = errorReports tail := by
  rw [errorReports_append, errorReports_append, errorReports_append,
    h0, hm, h1]
  omega

theorem attemptSteps_block (tr0 mid tr1 tail : List Ev)
    (hm : attemptSteps mid = []) (h1 : attemptSteps tr1 = []) :
    attemptSteps ((tr0 ++ mid ++ tr1) ++ tail) =
      attemptSteps tr0 ++ attemptSteps tail := by
  rw [attemptSteps_append, attemptSteps_append, attemptSteps_append,
    hm, h1, List.append_nil, List.append_nil]

theorem ffmpeg_setup_neverRetries (o : FfmpegOracle) (fs : FS)
    (baseDir : FPath) :
    neverRetries (ffmpeg_download_and_setup o fs baseDir).2.2 := by
  unfold ffmpeg_download_and_setup ffmpegFail
  by_cases hin : (baseDir ++ ["ffmpeg_portable"]) ++ ["bin", "ffmpeg.exe"] ∈ fs
  · rw [if_pos hin]
    exact List.nodup_nil
  · rw [if_neg hin]
    rcases o with ⟨dl, extract, innerName, binExists, binHasFfmpeg⟩
    dsimp only
    cases dl with
    | raise msg wrotePart => exact List.nodup_singleton _
    | success chunks total =>
        have hsteps : ∀ tail : List Ev,
            attemptSteps (([Ev.progress 0 100 "Downloading FFmpeg...",
              Ev.attempt "download FFmpeg"] ++
                dlLoopEvents 70 "FFmpeg" total 0 chunks ++
                [Ev.progress 75 100 "Extracting FFmpeg..."]) ++ tail) =
              [Ev.attempt "download FFmpeg"] ++ attemptSteps tail :=
          fun tail => attemptSteps_block _ _ _ tail
            (attemptSteps_dlLoopEvents ..) rfl
        cases extract with
        | some msg =>
            unfold neverRetries
            rw [hsteps]
            exact (by decide : List.Nodup [Ev.attempt "download FFmpeg"])
        | none =>
            cases innerName with
            | none =>
                unfold neverRetries
                rw [hsteps]
                exact (by decide : List.Nodup [Ev.attempt "download FFmpeg"])
            | some nm =>
                cases binExists with
                | true =>
                    show neverRetries
                      (([Ev.progress 0 100 "Downloading FFmpeg...",
                        Ev.attempt "download FFmpeg"] ++
                          dlLoopEvents 70 "FFmpeg" total 0 chunks ++
                          [Ev.progress 75 100 "Extracting FFmpeg..."]) ++
                        [Ev.progress 100 100 "Portable FFmpeg ready"])
                    unfold neverRetries
                    rw [hsteps]
                    exact (by decide : List.Nodup [Ev.attempt "download FFmpeg"])
                | false =>
                    show neverRetries
                      (([Ev.progress 0 100 "Downloading FFmpeg...",
                        Ev.attempt "download FFmpeg"] ++
                          dlLoopEvents 70 "FFmpeg" total 0 chunks ++
                          [Ev.progress 75 100 "Extracting FFmpeg..."]) ++
                        [Ev.progress 0 100 ("FFmpeg download failed: " ++
                          "FFmpeg zip missing bin/ directory")])
                    unfold neverRetries
                    rw [hsteps]
                    exact (by decide : List.Nodup [Ev.attempt "download FFmpeg"])

theorem ffmpeg_setup_false_reports_once (o : FfmpegOracle) (fs : FS)
    (baseDir : FPath)
    (h : (ffmpeg_download_and_setup o fs baseDir).1 = false) :
    errorReports (ffmpeg_download_and_setup o fs baseDir).2.2 = 1 := by
  unfold ffmpeg_download_and_setup ffmpegFail at h ⊢
  by_cases hin : (baseDir ++ ["ffmpeg_portable"]) ++ ["bin", "ffmpeg.exe"] ∈ fs
  · rw [if_pos hin] at h
    simp at h
  · rw [if_neg hin] at h ⊢
    rcases o with ⟨dl, extract, innerName, binExists, binHasFfmpeg⟩
    dsimp only at h ⊢
    cases dl with
    | raise msg wrotePart => rfl
    | success chunks total =>
        have her : ∀ tail : List Ev,
            errorReports (([Ev.progress 0 100 "Downloading FFmpeg...",
              Ev.attempt "download FFmpeg"] ++
                dlLoopEvents 70 "FFmpeg" total 0 chunks ++
                [Ev.progress 75 100 "Extracting FFmpeg..."]) ++ tail) =
              errorReports tail :=
          fun tail => errorReports_block _ _ _ tail rfl
            (errorReports_dlLoopEvents ..) rfl
        cases extract with
        | some msg => rw [her]; rfl
        | none =>
            cases innerName with
            | none => rw [her]; rfl
            | some nm =>
                cases binExists with
                | true => exact Bool.noConfusion h
                | false =>
                    show errorReports
                      (([Ev.progress 0 100 "Downloading FFmpeg...",
                        Ev.attempt "download FFmpeg"] ++
                          dlLoopEvents 70 "FFmpeg" total 0 chunks ++
                          [Ev.progress 75 100 "Extracting FFmpeg..."]) ++
                        [Ev.progress 0 100 ("FFmpeg download failed: " ++
                          "FFmpeg zip missing bin/ directory")]) = 1
                    rw [her]
                    rfl

theorem attemptSteps_nil : attemptSteps [] = [] := rfl

theorem errorReports_nil : errorReports [] = 0 := rfl

/-- The external steps phase 2 of the Python setup attempts, by oracle
case: nothing, just the get-pip download, download+run, or
download+run+upgrade. -/
theorem python_phase2_steps (o : PyOracle) (baseDir : FPath) (fs5 : FS)
    (tr5 : List Ev) :
    attemptSteps (python_setup_phase2 o baseDir fs5 tr5).2.2 =
        attemptSteps tr5
    ∨ attemptSteps (python_setup_phase2 o baseDir fs5 tr5).2.2 =
        attemptSteps tr5 ++ [Ev.attempt "download get-pip.py"]
    ∨ attemptSteps (python_setup_phase2 o baseDir fs5 tr5).2.2 =
        attemptSteps tr5 ++
          [Ev.attempt "download get-pip.py", Ev.attempt "run get-pip.py"]
    ∨ attemptSteps (python_setup_phase2 o baseDir fs5 tr5).2.2 =
        attemptSteps tr5 ++
          [Ev.attempt "download get-pip.py", Ev.attempt "run get-pip.py",
           Ev.attempt "pip upgrade"] := by
  unfold python_setup_phase2 pythonFail
  rcases o with ⟨hasPip, dl, extract, zExe, zPth, gpd, gpExit, gpErr⟩
  dsimp only
  by_cases hpth : (baseDir ++ ["python_embedded"]) ++ ["python312._pth"] ∉ fs5
  · rw [if_pos hpth]
    left
    simp only [attemptSteps_append, attemptSteps_cons_progress,
      attemptSteps_nil, List.append_nil]
  · rw [if_neg hpth]
    by_cases hp : hasPip = true
    · rw [if_pos hp]
      left
      simp only [attemptSteps_append, attemptSteps_cons_progress,
        attemptSteps_nil, List.append_nil]
    · rw [if_neg hp]
      cases gpd with
      | some msg =>
          right; left
          simp only [attemptSteps_append, attemptSteps_cons_progress,
            attemptSteps_cons_attempt, attemptSteps_nil, List.append_nil]
      | none =>
          by_cases hexit : gpExit ≠ 0
          · rw [if_pos hexit]
            right; right; left
            simp only [attemptSteps_append, attemptSteps_cons_progress,
              attemptSteps_cons_attempt, attemptSteps_nil, List.append_nil,
              List.append_assoc]
            rfl
          · rw [if_neg hexit]
            right; right; right
            simp only [attemptSteps_append, attemptSteps_cons_progress,
              attemptSteps_cons_attempt, attemptSteps_nil, List.append_nil,
              List.append_assoc]
            rfl

/-- A failing phase 2 of the Python setup reports exactly one more error
than its incoming trace. -/
theorem python_phase2_false_reports (o : PyOracle) (baseDir : FPath)
    (fs5 : FS) (tr5 : List Ev)
    (h : (python_setup_phase2 o baseDir fs5 tr5).1 = false) :
    errorReports (python_setup_phase2 o baseDir fs5 tr5).2.2 =
      errorReports tr5 + 1 := by
  unfold python_setup_phase2 pythonFail at h ⊢
  rcases o with ⟨hasPip, dl, extract, zExe, zPth, gpd, gpExit, gpErr⟩
  dsimp only at h ⊢
  by_cases hpth : (baseDir ++ ["python_embedded"]) ++ ["python312._pth"] ∉ fs5
  · rw [if_pos hpth]
    have e1 : errorReports [Ev.progress 65 100 "Configuring Python paths..."]
      = 0 := rfl
    have e2 : errorReports [Ev.progress 0 100 ("Error setting up Python: " ++
      "Could not find python*._pth file in embedded Python")] = 1 := rfl
    rw [errorReports_append, errorReports_append, e1, e2]
  · rw [if_neg hpth] at h ⊢
    by_cases hp : hasPip = true
    · rw [if_pos hp] at h
      simp at h
    · rw [if_neg hp] at h ⊢
      cases gpd with
      | some msg =>
          have e1 : errorReports ([Ev.progress 65 100
            "Configuring Python paths..."] ++
            [Ev.progress 75 100 "Bootstrapping pip...",
             Ev.progress 78 100 "Downloading get-pip.py...",
             Ev.attempt "download get-pip.py"]) = 0 := rfl
          have e2 : errorReports [Ev.progress 0 100
            ("Error setting up Python: " ++ msg)] = 1 := rfl
          rw [List.append_assoc, List.append_assoc, errorReports_append,
            errorReports_append, e2]
          have e3 : errorReports ([Ev.progress 65 100
            "Configuring Python paths..."] ++
            ([Ev.progress 75 100 "Bootstrapping pip...",
              Ev.progress 78 100 "Downloading get-pip.py...",
              Ev.attempt "download get-pip.py"])) = 0 := rfl
          rw [errorReports_append] at e3
          omega
      | none =>
          by_cases hexit : gpExit ≠ 0
          · rw [if_pos hexit]
            have e2 : errorReports [Ev.progress 0 100
              ("Error setting up Python: " ++ ("get-pip.py failed: " ++
                gpErr))] = 1 := rfl
            simp only [errorReports_append, e2]
            have e1 : errorReports [Ev.progress 65 100
              "Configuring Python paths..."] = 0 := rfl
            have e3 : errorReports [Ev.progress 75 100 "Bootstrapping pip...",
              Ev.progress 78 100 "Downloading get-pip.py...",
              Ev.attempt "download get-pip.py"] = 0 := rfl
            have e4 : errorReports [Ev.progress 82 100 "Installing pip...",
              Ev.attempt "run get-pip.py"] = 0 := rfl
            rw [e1, e3, e4]
          · rw [if_neg hexit] at h
            simp at h

theorem python_setup_neverRetries (o : PyOracle) (fs : FS)
    (baseDir : FPath) :
    neverRetries (python_download_and_setup o fs baseDir).2.2 := by
  unfold python_download_and_setup pythonFail neverRetries
  by_cases hg : ((baseDir ++ ["python_embedded"]) ++ ["python.exe"] ∈ fs ∧
      (baseDir ++ ["python_embedded"]) ++ ["Lib", "site-packages"] ∈ fs) ∧
      o.hasPip = true
  · rw [if_pos hg]
    exact List.nodup_nil
  · rw [if_neg hg]
    by_cases hexe : (baseDir ++ ["python_embedded"]) ++ ["python.exe"] ∈ fs
    · rw [if_pos hexe]
      have hsteps0 : attemptSteps ([] : List Ev) = [] := rfl
      rcases python_phase2_steps o baseDir fs [] with h | h | h | h <;>
        rw [h, hsteps0] <;> decide
    · rw [if_neg hexe]
      rcases o with ⟨hasPip, dl, extract, zExe, zPth, gpd, gpExit, gpErr⟩
      dsimp only
      cases dl with
      | raise msg wrotePart => exact List.nodup_singleton _
      | success chunks total =>
          cases extract with
          | some msg =>
              show List.Nodup (attemptSteps
                (([Ev.progress 0 100 "Downloading Python 3.12.8...",
                  Ev.attempt "download Python"] ++
                    dlLoopEvents 45 "Python" total 0 chunks ++
                    [Ev.progress 50 100 "Extracting Python..."]) ++
                  [Ev.progress 0 100 ("Error setting up Python: " ++ msg)]))
              rw [attemptSteps_block
                [Ev.progress 0 100 "Downloading Python 3.12.8...",
                  Ev.attempt "download Python"]
                (dlLoopEvents 45 "Python" total 0 chunks)
                [Ev.progress 50 100 "Extracting Python..."]
                [Ev.progress 0 100 ("Error setting up Python: " ++ msg)]
                (attemptSteps_dlLoopEvents ..) rfl]
              exact (by decide :
                List.Nodup [Ev.attempt "download Python"])
          | none =>
              have htr : attemptSteps
                  ([Ev.progress 0 100 "Downloading Python 3.12.8...",
                    Ev.attempt "download Python"] ++
                    dlLoopEvents 45 "Python" total 0 chunks ++
                    [Ev.progress 50 100 "Extracting Python..."]) =
                  [Ev.attempt "download Python"] := by
                simp only [attemptSteps_append, attemptSteps_dlLoopEvents,
                  List.append_nil]
                rfl
              rcases python_phase2_steps
                  ⟨hasPip, .success chunks total, none, zExe, zPth, gpd,
                    gpExit, gpErr⟩ baseDir
                  (FS.del (baseDir ++ ["python_embedded.zip"])
                    (insertIf zPth
                      ((baseDir ++ ["python_embedded"]) ++ ["python312._pth"])
                      (insertIf zExe
                        ((baseDir ++ ["python_embedded"]) ++ ["python.exe"])
                        (FS.ins (baseDir ++ ["python_embedded"])
                          (FS.ins (baseDir ++ ["python_embedded.zip"]) fs)))))
                  ([Ev.progress 0 100 "Downloading Python 3.12.8...",
                    Ev.attempt "download Python"] ++
                    dlLoopEvents 45 "Python" total 0 chunks ++
                    [Ev.progress 50 100 "Extracting Python..."])
                with h | h | h | h <;>
                rw [h, htr] <;> decide

theorem python_setup_false_reports_once (o : PyOracle) (fs : FS)
    (baseDir : FPath)
    (h : (python_download_and_setup o fs baseDir).1 = false) :
    errorReports (python_download_and_setup o fs baseDir).2.2 = 1 := by
  unfold python_download_and_setup pythonFail at h ⊢
  by_cases hg : ((baseDir ++ ["python_embedded"]) ++ ["python.exe"] ∈ fs ∧
      (baseDir ++ ["python_embedded"]) ++ ["Lib", "site-packages"] ∈ fs) ∧
      o.hasPip = true
  · rw [if_pos hg] at h
    simp at h
  · rw [if_neg hg] at h ⊢
    by_cases hexe : (baseDir ++ ["python_embedded"]) ++ ["python.exe"] ∈ fs
    · rw [if_pos hexe] at h ⊢
      rw [python_phase2_false_reports o baseDir fs [] h]
      rfl
    · rw [if_neg hexe] at h ⊢
      rcases o with ⟨hasPip, dl, extract, zExe, zPth, gpd, gpExit, gpErr⟩
      dsimp only at h ⊢
      cases dl with
      | raise msg wrotePart => rfl
      | success chunks total =>
          cases extract with
          | some msg =>
              show errorReports
                (([Ev.progress 0 100 "Downloading Python 3.12.8...",
                  Ev.attempt "download Python"] ++
                    dlLoopEvents 45 "Python" total 0 chunks ++
                    [Ev.progress 50 100 "Extracting Python..."]) ++
                  [Ev.progress 0 100 ("Error setting up Python: " ++ msg)])
                = 1
              rw [errorReports_block
                [Ev.progress 0 100 "Downloading Python 3.12.8...",
                  Ev.attempt "download Python"]
                (dlLoopEvents 45 "Python" total 0 chunks)
                [Ev.progress 50 100 "Extracting Python..."]
                [Ev.progress 0 100 ("Error setting up Python: " ++ msg)]
                rfl (errorReports_dlLoopEvents ..) rfl]
              rfl
          | none =>
              have htr : errorReports
                  ([Ev.progress 0 100 "Downloading Python 3.12.8...",
                    Ev.attempt "download Python"] ++
                    dlLoopEvents 45 "Python" total 0 chunks ++
                    [Ev.progress 50 100 "Extracting Python..."]) = 0 := by
                simp only [errorReports_append, errorReports_dlLoopEvents]
                rfl
              rw [python_phase2_false_reports _ _ _ _ h, htr]
theorem download_model_neverRetries (ra ha : Bool) (od : DirectOutcome)
    (oh : HfOutcome) (fs : FS) (modelsDir : FPath) (m : ModelInfo) :
    neverRetries (download_model ra ha od oh fs modelsDir m).2.2 := by
  unfold download_model
  by_cases hc : check_model_exists fs modelsDir m = true
  · rw [if_pos hc]
    exact List.nodup_nil
  · rw [if_neg hc]
    by_cases hurl : m.url.isSome = true
    · rw [if_pos hurl]
      unfold download_direct neverRetries
      by_cases hra : ra = true
      · rw [if_neg (not_not_intro hra)]
        cases od with
        | raise msg wrotePart => exact List.nodup_singleton _
        | success chunks total =>
            simp only [attemptSteps_append, attemptSteps_directLoopEvents,
              List.append_nil]
            exact (by decide : List.Nodup [Ev.attempt "requests.get"])
      · rw [if_pos hra]
        exact List.nodup_nil
    · rw [if_neg hurl]
      by_cases hrepo : (m.repo.isSome && ha) = true
      · rw [if_pos hrepo]
        unfold download_huggingface neverRetries
        cases oh with
        | raise msg => exact List.nodup_singleton _
        | success => exact List.nodup_singleton _
      · rw [if_neg hrepo]
        exact List.nodup_nil

theorem download_model_false_reports_once (ra ha : Bool)
    (od : DirectOutcome) (oh : HfOutcome) (fs : FS) (modelsDir : FPath)
    (m : ModelInfo)
    (h : (download_model ra ha od oh fs modelsDir m).1 = false) :
    errorReports (download_model ra ha od oh fs modelsDir m).2.2 = 1 := by
  unfold download_model at h ⊢
  by_cases hc : check_model_exists fs modelsDir m = true
  · rw [if_pos hc] at h
    simp at h
  · rw [if_neg hc] at h ⊢
    by_cases hurl : m.url.isSome = true
    · rw [if_pos hurl] at h ⊢
      unfold download_direct at h ⊢
      by_cases hra : ra = true
      · rw [if_neg (not_not_intro hra)] at h ⊢
        cases od with
        | raise msg wrotePart => rfl
        | success chunks total =>
            exfalso
            dsimp only at h
            have hmem : modelPathNested modelsDir m ∈
                FS.ins (modelPathNested modelsDir m)
                  (FS.ins (modelsDir ++ [m.getFolder]) fs) :=
              FS.mem_ins.2 (.inl rfl)
            rw [decide_eq_true hmem] at h
            exact Bool.noConfusion h
      · rw [if_pos hra] at h ⊢
        rfl
    · rw [if_neg hurl] at h ⊢
      by_cases hrepo : (m.repo.isSome && ha) = true
      · rw [if_pos hrepo] at h ⊢
        cases oh with
        | raise msg => rfl
        | success =>
            rw [(download_huggingface_success fs modelsDir m).1] at h
            exact Bool.noConfusion h
      · rw [if_neg hrepo] at h ⊢
        rfl

/-- The requirements-failure behavior of `install_node`: the pip failure is
reported through the callback, but the result of
`_install_node_requirements` is discarded and `install_node` returns
`True`. -/
theorem install_node_req_failure_behavior (venv : VenvOracle) (fs : FS)
    (comfyDir : FPath) (n : NodeInfo)
    (h1 : venv.venvCreated = true) (h2 : venv.reqInstallOk = false) :
    (install_node (.success true) venv fs comfyDir n).1 = true
    ∧ ((comfyDir ++ ["custom_nodes"]) ++ [repoNameOf (n.repo.getD "")] ∉ fs →
      Ev.progress 0 100 ("Error: " ++ venv.reqInstallErr) ∈
        (install_node (.success true) venv fs comfyDir n).2.2) := by
  constructor
  · unfold install_node
    by_cases ht : (comfyDir ++ ["custom_nodes"]) ++
        [repoNameOf (n.repo.getD "")] ∈ fs
    · rw [if_pos ht]
    · rw [if_neg ht]
  · intro ht
    unfold install_node
    rw [if_neg ht]
    show Ev.progress 0 100 ("Error: " ++ venv.reqInstallErr) ∈
      ([Ev.progress 0 100 ("Cloning " ++
          n.name.getD (defaultNodeName (n.repo.getD "")) ++ "..."),
        Ev.attempt "git clone"] ++
        [Ev.progress 50 100 ("Installing " ++
          n.name.getD (defaultNodeName (n.repo.getD "")) ++
          " requirements...")] ++
        (install_node_requirements venv
          (insertIf true (((comfyDir ++ ["custom_nodes"]) ++
            [repoNameOf (n.repo.getD "")]) ++ ["requirements.txt"])
            (FS.ins ((comfyDir ++ ["custom_nodes"]) ++
              [repoNameOf (n.repo.getD "")])
              (FS.ins (comfyDir ++ ["custom_nodes"]) fs)))
          ((comfyDir ++ ["custom_nodes"]) ++
            [repoNameOf (n.repo.getD "")])).2 ++
        [Ev.progress 100 100 (n.name.getD (defaultNodeName (n.repo.getD ""))
          ++ " installed successfully")])
    unfold install_node_requirements venv_install_requirements
    have hmem : ((comfyDir ++ ["custom_nodes"]) ++
        [repoNameOf (n.repo.getD "")]) ++ ["requirements.txt"] ∈
        insertIf true (((comfyDir ++ ["custom_nodes"]) ++
          [repoNameOf (n.repo.getD "")]) ++ ["requirements.txt"])
          (FS.ins ((comfyDir ++ ["custom_nodes"]) ++
            [repoNameOf (n.repo.getD "")])
            (FS.ins (comfyDir ++ ["custom_nodes"]) fs)) :=
      mem_insertIf.2 (.inl ⟨rfl, rfl⟩)
    rw [if_neg (not_not_intro hmem)]
    rw [if_neg (not_not_intro h1)]
    rw [if_neg (by rw [h2]; exact Bool.false_ne_true)]
    simp

/-- Claim C5 (amended): failure semantics are "retry never, report once"
with the caveat the counterexample exhibits.  For `install_node`, the
Git/FFmpeg/Python managers' `download_and_setup`, and `download_model`:
no external network/subprocess step is ever attempted twice in a run, and
every run that returns `False` reports exactly one error message through
the progress callback; however a failure while installing a custom node's
requirements is reported once and then ignored — `install_node` still
returns `True` for that run. -/
theorem failure_semantics_spec :
    (∀ clone venv fs comfyDir n,
      neverRetries (install_node clone venv fs comfyDir n).2.2)
    ∧ (∀ clone venv fs comfyDir n,
      (install_node clone venv fs comfyDir n).1 = false →
      errorReports (install_node clone venv fs comfyDir n).2.2 = 1)
    ∧ (∀ o fs baseDir,
      neverRetries (git_download_and_setup o fs baseDir).2.2)
    ∧ (∀ o fs baseDir,
      (git_download_and_setup o fs baseDir).1 = false →
      errorReports (git_download_and_setup o fs baseDir).2.2 = 1)
    ∧ (∀ o fs baseDir,
      neverRetries (ffmpeg_download_and_setup o fs baseDir).2.2)
    ∧ (∀ o fs baseDir,
      (ffmpeg_download_and_setup o fs baseDir).1 = false →
      errorReports (ffmpeg_download_and_setup o fs baseDir).2.2 = 1)
    ∧ (∀ o fs baseDir,
      neverRetries (python_download_and_setup o fs baseDir).2.2)
    ∧ (∀ o fs baseDir,
      (python_download_and_setup o fs baseDir).1 = false →
      errorReports (python_download_and_setup o fs baseDir).2.2 = 1)
    ∧ (∀ ra ha od oh fs modelsDir m,
      neverRetries (download_model ra ha od oh fs modelsDir m).2.2)
    ∧ (∀ ra ha od oh fs modelsDir m,
      (download_model ra ha od oh fs modelsDir m).1 = false →
      errorReports (download_model ra ha od oh fs modelsDir m).2.2 = 1)
    ∧ (∀ venv fs comfyDir n, venv.venvCreated = true →
      venv.reqInstallOk = false →
      (install_node (.success true) venv fs comfyDir n).1 = true
      ∧ ((comfyDir ++ ["custom_nodes"]) ++ [repoNameOf (n.repo.getD "")] ∉ fs →
        Ev.progress 0 100 ("Error: " ++ venv.reqInstallErr) ∈
          (install_node (.success true) venv fs comfyDir n).2.2)) :=
  ⟨install_node_neverRetries, install_node_false_reports_once,
   git_setup_neverRetries, git_setup_false_reports_once,
   ffmpeg_setup_neverRetries, ffmpeg_setup_false_reports_once,
   python_setup_neverRetries, python_setup_false_reports_once,
   download_model_neverRetries, download_model_false_reports_once,
   install_node_req_failure_behavior⟩

/-- Witness for the amended claim C5 at concrete failing runs. -/
theorem failure_semantics_spec_witness :
    errorReports (install_node (.fail "fatal: not found") ⟨true, true, ""⟩
      [] ["comfy"] ⟨some "https://h/o/repo.git", some "N", none⟩).2.2 = 1
    ∧ errorReports (git_download_and_setup
        ⟨.raise "timeout" false, none, true⟩ [] ["base"]).2.2 = 1
    ∧ errorReports (python_download_and_setup
        ⟨false, .raise "refused" false, none, true, true, none, 0, ""⟩
        [] ["base"]).2.2 = 1 :=
  ⟨failure_semantics_spec.2.1 (.fail "fatal: not found") ⟨true, true, ""⟩
    [] ["comfy"] ⟨some "https://h/o/repo.git", some "N", none⟩ (by decide),
   failure_semantics_spec.2.2.2.1 ⟨.raise "timeout" false, none, true⟩
    [] ["base"] (by decide),
   failure_semantics_spec.2.2.2.2.2.2.2.1
    ⟨false, .raise "refused" false, none, true, true, none, 0, ""⟩
    [] ["base"] (by decide)⟩

/-!
## Claim C4: clone-or-skip and idempotence
-/

theorem base_ne (base : FPath) {a b : List String} (h : ¬ a = b) :
    ¬ base ++ a = base ++ b :=
  fun hc => h (List.append_cancel_left hc)

theorem base_not_pre (base : FPath) {a b : List String} (h : ¬ a <+: b) :
    ¬ (base ++ a) <+: (base ++ b) :=
  fun hc => h ((List.prefix_append_right_inj base).1 hc)

theorem FS.ins_idem (p : FPath) (fs : FS) :
    FS.ins p (FS.ins p fs) = FS.ins p fs := by
  unfold FS.ins
  by_cases h : p ∈ fs
  · rw [if_pos h, if_pos h]
  · rw [if_neg h, if_pos (List.mem_cons_self p fs)]

theorem FS.seteq_refl (fs : FS) : FS.seteq fs fs = true := by
  rw [FS.seteq_iff]
  intro p
  rfl

theorem FS.seteq_of_eq {a b : FS} (h : a = b) : FS.seteq a b = true :=
  h ▸ FS.seteq_refl a

/-- The resulting filesystem of `install_node`, by branch. -/
theorem install_node_state (clone : CloneOutcome) (venv : VenvOracle)
    (fs : FS) (comfyDir : FPath) (n : NodeInfo) :
    (install_node clone venv fs comfyDir n).2.1 =
      if (comfyDir ++ ["custom_nodes"]) ++ [repoNameOf (n.repo.getD "")] ∈ fs
      then fs
      else
        match clone with
        | .success hasReq =>
            insertIf hasReq
              (((comfyDir ++ ["custom_nodes"]) ++
                [repoNameOf (n.repo.getD "")]) ++ ["requirements.txt"])
              (FS.ins ((comfyDir ++ ["custom_nodes"]) ++
                [repoNameOf (n.repo.getD "")])
                (FS.ins (comfyDir ++ ["custom_nodes"]) fs))
        | _ => FS.ins (comfyDir ++ ["custom_nodes"]) fs := by
  unfold install_node
  by_cases ht : (comfyDir ++ ["custom_nodes"]) ++
      [repoNameOf (n.repo.getD "")] ∈ fs
  · rw [if_pos ht, if_pos ht]
  · rw [if_neg ht, if_neg ht]
    cases clone <;> rfl

theorem install_node_skip (clone : CloneOutcome) (venv : VenvOracle)
    (fs : FS) (comfyDir : FPath) (n : NodeInfo)
    (h : (comfyDir ++ ["custom_nodes"]) ++ [repoNameOf (n.repo.getD "")] ∈ fs) :
    install_node clone venv fs comfyDir n =
      (true, fs, [.progress 100 100
        (n.name.getD (defaultNodeName (n.repo.getD "")) ++
          " already installed")]) := by
  unfold install_node
  rw [if_pos h]

theorem install_node_idempotent (clone : CloneOutcome) (venv : VenvOracle)
    (fs : FS) (comfyDir : FPath) (n : NodeInfo) :
    FS.seteq
      (install_node clone venv
        (install_node clone venv fs comfyDir n).2.1 comfyDir n).2.1
      (install_node clone venv fs comfyDir n).2.1 = true := by
  have hcn : ¬ (comfyDir ++ ["custom_nodes"]) ++
      [repoNameOf (n.repo.getD "")] = comfyDir ++ ["custom_nodes"] := by
    intro hc
    have := congrArg List.length hc
    simp at this
  rw [install_node_state, install_node_state]
  by_cases ht : (comfyDir ++ ["custom_nodes"]) ++
      [repoNameOf (n.repo.getD "")] ∈ fs
  · rw [if_pos ht, if_pos ht]
    exact FS.seteq_refl fs
  · rw [if_neg ht]
    cases clone with
    | success hasReq =>
        rw [if_pos (mem_insertIf.2 (.inr (FS.mem_ins.2 (.inl rfl))))]
        exact FS.seteq_refl _
    | fail stderr =>
        rw [if_neg (by
          intro hc
          rcases FS.mem_ins.1 hc with h1 | h1
          · exact hcn h1
          · exact ht h1)]
        exact FS.seteq_of_eq (FS.ins_idem ..)
    | fileNotFound =>
        rw [if_neg (by
          intro hc
          rcases FS.mem_ins.1 hc with h1 | h1
          · exact hcn h1
          · exact ht h1)]
        exact FS.seteq_of_eq (FS.ins_idem ..)
    | exc msg =>
        rw [if_neg (by
          intro hc
          rcases FS.mem_ins.1 hc with h1 | h1
          · exact hcn h1
          · exact ht h1)]
        exact FS.seteq_of_eq (FS.ins_idem ..)

theorem git_setup_skip (o : GitSetupOracle) (fs : FS) (baseDir : FPath)
    (h : (baseDir ++ ["git_portable"]) ++ ["cmd", "git.exe"] ∈ fs) :
    git_download_and_setup o fs baseDir =
      (true, fs, [.progress 100 100 "Portable Git already installed"]) := by
  unfold git_download_and_setup
  rw [if_pos h]

/-- The resulting filesystem of `GitManager.download_and_setup`. -/
theorem git_setup_state (o : GitSetupOracle) (fs : FS) (baseDir : FPath) :
    (git_download_and_setup o fs baseDir).2.1 =
      if (baseDir ++ ["git_portable"]) ++ ["cmd", "git.exe"] ∈ fs then fs
      else
        match o.download with
        | .raise _ wrotePart =>
            insertIf wrotePart (baseDir ++ ["git_portable.zip"]) fs
        | .success _ _ =>
            match o.extract with
            | some _ =>
                FS.ins (baseDir ++ ["git_portable"])
                  (FS.ins (baseDir ++ ["git_portable.zip"]) fs)
            | none =>
                FS.del (baseDir ++ ["git_portable.zip"])
                  (insertIf o.zipHasGitExe
                    ((baseDir ++ ["git_portable"]) ++ ["cmd", "git.exe"])
                    (FS.ins (baseDir ++ ["git_portable"])
                      (FS.ins (baseDir ++ ["git_portable.zip"]) fs))) := by
  unfold git_download_and_setup
  by_cases hin : (baseDir ++ ["git_portable"]) ++ ["cmd", "git.exe"] ∈ fs
  · rw [if_pos hin, if_pos hin]
  · rw [if_neg hin, if_neg hin]
    rcases o with ⟨dl, extract, hasExe⟩
    dsimp only
    cases dl with
    | raise msg wrotePart => rfl
    | success chunks total => cases extract <;> rfl

theorem FS.ins_of_mem {p : FPath} {fs : FS} (h : p ∈ fs) :
    FS.ins p fs = fs := by
  unfold FS.ins
  rw [if_pos h]

/-- A filesystem state is well formed when every (nonempty) ancestor of an
existing path exists as well; real directory trees always satisfy this. -/
def prefixClosed (fs : FS) : Prop :=
  ∀ q ∈ fs, ∀ r ∈ q.inits, r ≠ [] → r ∈ fs

theorem prefixClosed_iff {fs : FS} :
    prefixClosed fs ↔ ∀ q ∈ fs, ∀ r ∈ q.inits, r ≠ [] → r ∈ fs :=
  Iff.rfl

theorem ffmpeg_run_skip (o : FfmpegOracle) (fs : FS) (baseDir : FPath)
    (h : (baseDir ++ ["ffmpeg_portable"]) ++ ["bin", "ffmpeg.exe"] ∈ fs) :
    ffmpeg_download_and_setup o fs baseDir =
      (true, fs, [.progress 100 100 "Portable FFmpeg already installed"]) := by
  unfold ffmpeg_download_and_setup
  rw [if_pos h]

theorem ffmpeg_run_raise (msg : String) (wp : Bool) (ex inn : Option String)
    (be bhf : Bool) (fs : FS) (baseDir : FPath)
    (hin : (baseDir ++ ["ffmpeg_portable"]) ++ ["bin", "ffmpeg.exe"] ∉ fs) :
    (ffmpeg_download_and_setup ⟨.raise msg wp, ex, inn, be, bhf⟩ fs
        baseDir).2.1 =
      FS.del (baseDir ++ ["ffmpeg_portable.zip"])
        (removeTree (baseDir ++ ["_ffmpeg_temp"])
          (insertIf wp (baseDir ++ ["ffmpeg_portable.zip"]) fs)) := by
  unfold ffmpeg_download_and_setup ffmpegFail
  rw [if_neg hin]

theorem ffmpeg_run_extract_raise (ch : List Nat) (tot : Nat) (msg : String)
    (inn : Option String) (be bhf : Bool) (fs : FS) (baseDir : FPath)
    (hin : (baseDir ++ ["ffmpeg_portable"]) ++ ["bin", "ffmpeg.exe"] ∉ fs) :
    (ffmpeg_download_and_setup ⟨.success ch tot, some msg, inn, be, bhf⟩ fs
        baseDir).2.1 =
      FS.del (baseDir ++ ["ffmpeg_portable.zip"])
        (removeTree (baseDir ++ ["_ffmpeg_temp"])
          (FS.ins (baseDir ++ ["_ffmpeg_temp"])
            (FS.ins (baseDir ++ ["ffmpeg_portable.zip"]) fs))) := by
  unfold ffmpeg_download_and_setup ffmpegFail
  rw [if_neg hin]

theorem ffmpeg_run_no_inner (ch : List Nat) (tot : Nat) (be bhf : Bool)
    (fs : FS) (baseDir : FPath)
    (hin : (baseDir ++ ["ffmpeg_portable"]) ++ ["bin", "ffmpeg.exe"] ∉ fs) :
    (ffmpeg_download_and_setup ⟨.success ch tot, none, none, be, bhf⟩ fs
        baseDir).2.1 =
      FS.del (baseDir ++ ["ffmpeg_portable.zip"])
        (removeTree (baseDir ++ ["_ffmpeg_temp"])
          (FS.ins (baseDir ++ ["_ffmpeg_temp"])
            (FS.ins (baseDir ++ ["ffmpeg_portable.zip"]) fs))) := by
  unfold ffmpeg_download_and_setup ffmpegFail
  rw [if_neg hin]

theorem ffmpeg_run_no_bin (ch : List Nat) (tot : Nat) (nm : String)
    (bhf : Bool) (fs : FS) (baseDir : FPath)
    (hin : (baseDir ++ ["ffmpeg_portable"]) ++ ["bin", "ffmpeg.exe"] ∉ fs) :
    (ffmpeg_download_and_setup ⟨.success ch tot, none, some nm, false, bhf⟩ fs
        baseDir).2.1 =
      FS.del (baseDir ++ ["ffmpeg_portable.zip"])
        (removeTree (baseDir ++ ["_ffmpeg_temp"])
          (FS.ins (baseDir ++ ["ffmpeg_portable"])
            (FS.ins ((baseDir ++ ["_ffmpeg_temp"]) ++ [nm])
              (FS.ins (baseDir ++ ["_ffmpeg_temp"])
                (FS.ins (baseDir ++ ["ffmpeg_portable.zip"]) fs))))) := by
  unfold ffmpeg_download_and_setup ffmpegFail
  rw [if_neg hin]
  rfl

/-- The filesystem built by `FfmpegManager.download_and_setup` right after a
successful extraction with an inner directory and a `bin/` subdirectory,
before the `bin` move. -/
def ffmpegMid (bhf : Bool) (nm : String) (fs : FS) (baseDir : FPath) : FS :=
  FS.ins (baseDir ++ ["ffmpeg_portable"])
    (insertIf bhf
      (((baseDir ++ ["_ffmpeg_temp"]) ++ [nm]) ++ ["bin", "ffmpeg.exe"])
      (FS.ins (((baseDir ++ ["_ffmpeg_temp"]) ++ [nm]) ++ ["bin"])
        (FS.ins ((baseDir ++ ["_ffmpeg_temp"]) ++ [nm])
          (FS.ins (baseDir ++ ["_ffmpeg_temp"])
            (FS.ins (baseDir ++ ["ffmpeg_portable.zip"]) fs)))))

theorem ffmpeg_run_ok (ch : List Nat) (tot : Nat) (nm : String)
    (bhf : Bool) (fs : FS) (baseDir : FPath)
    (hin : (baseDir ++ ["ffmpeg_portable"]) ++ ["bin", "ffmpeg.exe"] ∉ fs) :
    (ffmpeg_download_and_setup ⟨.success ch tot, none, some nm, true, bhf⟩ fs
        baseDir).2.1 =
      FS.del (baseDir ++ ["ffmpeg_portable.zip"])
        (removeTree (baseDir ++ ["_ffmpeg_temp"])
          (insertIf bhf ((baseDir ++ ["ffmpeg_portable"]) ++
              ["bin", "ffmpeg.exe"])
            (FS.ins ((baseDir ++ ["ffmpeg_portable"]) ++ ["bin"])
              (removeTree (((baseDir ++ ["_ffmpeg_temp"]) ++ [nm]) ++ ["bin"])
                (if (baseDir ++ ["ffmpeg_portable"]) ++ ["bin"] ∈
                    ffmpegMid bhf nm fs baseDir
                 then removeTree ((baseDir ++ ["ffmpeg_portable"]) ++ ["bin"])
                   (ffmpegMid bhf nm fs baseDir)
                 else ffmpegMid bhf nm fs baseDir))))) := by
  unfold ffmpeg_download_and_setup ffmpegMid
  rw [if_neg hin]
  rfl

theorem mem_ffmpegMid_of_mem {q : FPath} {fs' : FS} (bhf : Bool)
    (nm : String) (baseDir : FPath) (h : q ∈ fs') :
    q ∈ ffmpegMid bhf nm fs' baseDir := by
  simp only [ffmpegMid]
  exact FS.mem_ins.2 (.inr (mem_insertIf.2 (.inr (FS.mem_ins.2 (.inr
    (FS.mem_ins.2 (.inr (FS.mem_ins.2 (.inr (FS.mem_ins.2 (.inr h)))))))))))

set_option maxHeartbeats 2000000 in
theorem ffmpeg_setup_idempotent (o : FfmpegOracle) (fs : FS)
    (baseDir : FPath) (hpc : prefixClosed fs) :
    FS.seteq
      (ffmpeg_download_and_setup o
        (ffmpeg_download_and_setup o fs baseDir).2.1 baseDir).2.1
      (ffmpeg_download_and_setup o fs baseDir).2.1 = true := by
  have hEZ : ¬ (baseDir ++ ["ffmpeg_portable"]) ++ ["bin", "ffmpeg.exe"] =
      baseDir ++ ["ffmpeg_portable.zip"] := by
    intro hc
    have := congrArg List.length hc
    simp at this
  have hET : ¬ (baseDir ++ ["ffmpeg_portable"]) ++ ["bin", "ffmpeg.exe"] =
      baseDir ++ ["_ffmpeg_temp"] := by
    intro hc
    have := congrArg List.length hc
    simp at this
  have hED : ¬ (baseDir ++ ["ffmpeg_portable"]) ++ ["bin", "ffmpeg.exe"] =
      baseDir ++ ["ffmpeg_portable"] := by
    intro hc
    have := congrArg List.length hc
    simp at this
  have hEBD : ¬ (baseDir ++ ["ffmpeg_portable"]) ++ ["bin", "ffmpeg.exe"] =
      (baseDir ++ ["ffmpeg_portable"]) ++ ["bin"] := by
    intro hc
    have := congrArg List.length hc
    simp at this
  have hTnE : ¬ (baseDir ++ ["_ffmpeg_temp"]) <+:
      (baseDir ++ ["ffmpeg_portable"]) ++ ["bin", "ffmpeg.exe"] := by
    intro hc
    rw [List.append_assoc] at hc
    exact absurd ((List.prefix_append_right_inj baseDir).1 hc) (by decide)
  have hTnBD : ¬ (baseDir ++ ["_ffmpeg_temp"]) <+:
      (baseDir ++ ["ffmpeg_portable"]) ++ ["bin"] := by
    intro hc
    rw [List.append_assoc] at hc
    exact absurd ((List.prefix_append_right_inj baseDir).1 hc) (by decide)
  have hBDZ : ¬ (baseDir ++ ["ffmpeg_portable"]) ++ ["bin"] =
      baseDir ++ ["ffmpeg_portable.zip"] := by
    intro hc
    have := congrArg List.length hc
    simp at this
  by_cases hin :
      (baseDir ++ ["ffmpeg_portable"]) ++ ["bin", "ffmpeg.exe"] ∈ fs
  · rw [ffmpeg_run_skip o fs baseDir hin]
    dsimp only
    rw [ffmpeg_run_skip o fs baseDir hin]
    exact FS.seteq_refl fs
  · rcases o with ⟨dl, ex, inn, be, bhf⟩
    cases dl with
    | raise msg wp =>
        rw [ffmpeg_run_raise msg wp ex inn be bhf fs baseDir hin]
        have h1 : (baseDir ++ ["ffmpeg_portable"]) ++ ["bin", "ffmpeg.exe"] ∉
            FS.del (baseDir ++ ["ffmpeg_portable.zip"])
              (removeTree (baseDir ++ ["_ffmpeg_temp"])
                (insertIf wp (baseDir ++ ["ffmpeg_portable.zip"]) fs)) := by
          intro hc
          obtain ⟨hc, hz⟩ := FS.mem_del.1 hc
          obtain ⟨hc, -⟩ := mem_removeTree.1 hc
          rcases mem_insertIf.1 hc with ⟨-, he⟩ | hf
          · exact hz he
          · exact hin hf
        rw [ffmpeg_run_raise msg wp ex inn be bhf _ baseDir h1]
        rw [FS.seteq_iff]
        intro p
        simp only [FS.mem_del, mem_removeTree, mem_insertIf]
        tauto
    | success ch tot =>
      cases ex with
      | some msg =>
          rw [ffmpeg_run_extract_raise ch tot msg inn be bhf fs baseDir hin]
          have h1 :
              (baseDir ++ ["ffmpeg_portable"]) ++ ["bin", "ffmpeg.exe"] ∉
              FS.del (baseDir ++ ["ffmpeg_portable.zip"])
                (removeTree (baseDir ++ ["_ffmpeg_temp"])
                  (FS.ins (baseDir ++ ["_ffmpeg_temp"])
                    (FS.ins (baseDir ++ ["ffmpeg_portable.zip"]) fs))) := by
            intro hc
            obtain ⟨hc, hz⟩ := FS.mem_del.1 hc
            obtain ⟨hc, -⟩ := mem_removeTree.1 hc
            rcases FS.mem_ins.1 hc with he | hc
            · exact hET he
            rcases FS.mem_ins.1 hc with he | hf
            · exact hz he
            · exact hin hf
          rw [ffmpeg_run_extract_raise ch tot msg inn be bhf _ baseDir h1]
          rw [FS.seteq_iff]
          intro p
          simp only [FS.mem_del, mem_removeTree, FS.mem_ins]
          have himpT : p = baseDir ++ ["_ffmpeg_temp"] →
              (baseDir ++ ["_ffmpeg_temp"]) <+: p := by
            intro h
            rw [h]
          tauto
      | none =>
        cases inn with
        | none =>
            rw [ffmpeg_run_no_inner ch tot be bhf fs baseDir hin]
            have h1 :
                (baseDir ++ ["ffmpeg_portable"]) ++ ["bin", "ffmpeg.exe"] ∉
                FS.del (baseDir ++ ["ffmpeg_portable.zip"])
                  (removeTree (baseDir ++ ["_ffmpeg_temp"])
                    (FS.ins (baseDir ++ ["_ffmpeg_temp"])
                      (FS.ins (baseDir ++ ["ffmpeg_portable.zip"]) fs))) := by
              intro hc
              obtain ⟨hc, hz⟩ := FS.mem_del.1 hc
              obtain ⟨hc, -⟩ := mem_removeTree.1 hc
              rcases FS.mem_ins.1 hc with he | hc
              · exact hET he
              rcases FS.mem_ins.1 hc with he | hf
              · exact hz he
              · exact hin hf
            rw [ffmpeg_run_no_inner ch tot be bhf _ baseDir h1]
            rw [FS.seteq_iff]
            intro p
            simp only [FS.mem_del, mem_removeTree, FS.mem_ins]
            have himpT : p = baseDir ++ ["_ffmpeg_temp"] →
                (baseDir ++ ["_ffmpeg_temp"]) <+: p := by
              intro h
              rw [h]
            tauto
        | some nm =>
          have hEI : ¬ (baseDir ++ ["ffmpeg_portable"]) ++
              ["bin", "ffmpeg.exe"] =
              (baseDir ++ ["_ffmpeg_temp"]) ++ [nm] := by
            intro hc
            have := congrArg List.length hc
            simp at this
          have hEIB : ¬ (baseDir ++ ["ffmpeg_portable"]) ++
              ["bin", "ffmpeg.exe"] =
              ((baseDir ++ ["_ffmpeg_temp"]) ++ [nm]) ++ ["bin"] := by
            intro hc
            simp only [List.append_assoc, List.cons_append,
              List.nil_append] at hc
            exact absurd (List.append_cancel_left hc) (by simp)
          cases be with
          | false =>
              rw [ffmpeg_run_no_bin ch tot nm bhf fs baseDir hin]
              have h1 :
                  (baseDir ++ ["ffmpeg_portable"]) ++ ["bin", "ffmpeg.exe"] ∉
                  FS.del (baseDir ++ ["ffmpeg_portable.zip"])
                    (removeTree (baseDir ++ ["_ffmpeg_temp"])
                      (FS.ins (baseDir ++ ["ffmpeg_portable"])
                        (FS.ins ((baseDir ++ ["_ffmpeg_temp"]) ++ [nm])
                          (FS.ins (baseDir ++ ["_ffmpeg_temp"])
                            (FS.ins (baseDir ++ ["ffmpeg_portable.zip"])
                              fs))))) := by
                intro hc
                obtain ⟨hc, hz⟩ := FS.mem_del.1 hc
                obtain ⟨hc, -⟩ := mem_removeTree.1 hc
                rcases FS.mem_ins.1 hc with he | hc
                · exact hED he
                rcases FS.mem_ins.1 hc with he | hc
                · exact hEI he
                rcases FS.mem_ins.1 hc with he | hc
                · exact hET he
                rcases FS.mem_ins.1 hc with he | hf
                · exact hz he
                · exact hin hf
              rw [ffmpeg_run_no_bin ch tot nm bhf _ baseDir h1]
              rw [FS.seteq_iff]
              intro p
              simp only [FS.mem_del, mem_removeTree, FS.mem_ins]
              have himpT : p = baseDir ++ ["_ffmpeg_temp"] →
                  (baseDir ++ ["_ffmpeg_temp"]) <+: p := by
                intro h
                rw [h]
              have himpI : p = (baseDir ++ ["_ffmpeg_temp"]) ++ [nm] →
                  (baseDir ++ ["_ffmpeg_temp"]) <+: p := by
                intro h
                rw [h]
                exact ⟨[nm], rfl⟩
              tauto
          | true =>
            cases bhf with
            | true =>
                have h1 :
                    (baseDir ++ ["ffmpeg_portable"]) ++
                      ["bin", "ffmpeg.exe"] ∈
                    (ffmpeg_download_and_setup
                      ⟨.success ch tot, none, some nm, true, true⟩ fs
                      baseDir).2.1 := by
                  rw [ffmpeg_run_ok ch tot nm true fs baseDir hin]
                  exact FS.mem_del.2 ⟨mem_removeTree.2
                    ⟨mem_insertIf.2 (.inl ⟨rfl, rfl⟩), hTnE⟩, hEZ⟩
                rw [ffmpeg_run_skip
                  ⟨.success ch tot, none, some nm, true, true⟩ _ baseDir h1]
                exact FS.seteq_refl _
            | false =>
                rw [ffmpeg_run_ok ch tot nm false fs baseDir hin]
                by_cases hbd : (baseDir ++ ["ffmpeg_portable"]) ++ ["bin"] ∈
                    ffmpegMid false nm fs baseDir
                · rw [if_pos hbd]
                  have h1 :
                      (baseDir ++ ["ffmpeg_portable"]) ++
                        ["bin", "ffmpeg.exe"] ∉
                      FS.del (baseDir ++ ["ffmpeg_portable.zip"])
                        (removeTree (baseDir ++ ["_ffmpeg_temp"])
                          (insertIf false ((baseDir ++ ["ffmpeg_portable"])
                              ++ ["bin", "ffmpeg.exe"])
                            (FS.ins ((baseDir ++ ["ffmpeg_portable"]) ++
                                ["bin"])
                              (removeTree (((baseDir ++ ["_ffmpeg_temp"]) ++
                                  [nm]) ++ ["bin"])
                                (removeTree ((baseDir ++
                                    ["ffmpeg_portable"]) ++ ["bin"])
                                  (ffmpegMid false nm fs baseDir)))))) := by
                    intro hc
                    obtain ⟨hc, hz⟩ := FS.mem_del.1 hc
                    obtain ⟨hc, -⟩ := mem_removeTree.1 hc
                    rcases mem_insertIf.1 hc with ⟨hfalse, -⟩ | hc
                    · exact Bool.noConfusion hfalse
                    rcases FS.mem_ins.1 hc with he | hc
                    · exact hEBD he
                    obtain ⟨hc, -⟩ := mem_removeTree.1 hc
                    obtain ⟨hc, -⟩ := mem_removeTree.1 hc
                    simp only [ffmpegMid] at hc
                    rcases FS.mem_ins.1 hc with he | hc
                    · exact hED he
                    rcases mem_insertIf.1 hc with ⟨hfalse, -⟩ | hc
                    · exact Bool.noConfusion hfalse
                    rcases FS.mem_ins.1 hc with he | hc
                    · exact hEIB he
                    rcases FS.mem_ins.1 hc with he | hc
                    · exact hEI he
                    rcases FS.mem_ins.1 hc with he | hc
                    · exact hET he
                    rcases FS.mem_ins.1 hc with he | hf
                    · exact hz he
                    · exact hin hf
                  rw [ffmpeg_run_ok ch tot nm false _ baseDir h1]
                  have hBDS1 :
                      (baseDir ++ ["ffmpeg_portable"]) ++ ["bin"] ∈
                      FS.del (baseDir ++ ["ffmpeg_portable.zip"])
                        (removeTree (baseDir ++ ["_ffmpeg_temp"])
                          (insertIf false ((baseDir ++ ["ffmpeg_portable"])
                              ++ ["bin", "ffmpeg.exe"])
                            (FS.ins ((baseDir ++ ["ffmpeg_portable"]) ++
                                ["bin"])
                              (removeTree (((baseDir ++ ["_ffmpeg_temp"]) ++
                                  [nm]) ++ ["bin"])
                                (removeTree ((baseDir ++
                                    ["ffmpeg_portable"]) ++ ["bin"])
                                  (ffmpegMid false nm fs baseDir)))))) :=
                    FS.mem_del.2 ⟨mem_removeTree.2
                      ⟨mem_insertIf.2 (.inr (FS.mem_ins.2 (.inl rfl))),
                        hTnBD⟩, hBDZ⟩
                  rw [if_pos (mem_ffmpegMid_of_mem false nm baseDir hBDS1)]
                  rw [FS.seteq_iff]
                  intro p
                  simp only [ffmpegMid, FS.mem_del, mem_removeTree,
                    FS.mem_ins, mem_insertIf]
                  have hft : ¬ ((false : Bool) = true) := Bool.false_ne_true
                  have himpT : p = baseDir ++ ["_ffmpeg_temp"] →
                      (baseDir ++ ["_ffmpeg_temp"]) <+: p := by
                    intro h
                    rw [h]
                  have himpI : p = (baseDir ++ ["_ffmpeg_temp"]) ++ [nm] →
                      (baseDir ++ ["_ffmpeg_temp"]) <+: p := by
                    intro h
                    rw [h]
                    exact ⟨[nm], rfl⟩
                  have himpIB :
                      p = ((baseDir ++ ["_ffmpeg_temp"]) ++ [nm]) ++ ["bin"]
                      → (baseDir ++ ["_ffmpeg_temp"]) <+: p := by
                    intro h
                    rw [h]
                    exact ⟨[nm, "bin"], by simp⟩
                  itauto
                · rw [if_neg hbd]
                  have h1 :
                      (baseDir ++ ["ffmpeg_portable"]) ++
                        ["bin", "ffmpeg.exe"] ∉
                      FS.del (baseDir ++ ["ffmpeg_portable.zip"])
                        (removeTree (baseDir ++ ["_ffmpeg_temp"])
                          (insertIf false ((baseDir ++ ["ffmpeg_portable"])
                              ++ ["bin", "ffmpeg.exe"])
                            (FS.ins ((baseDir ++ ["ffmpeg_portable"]) ++
                                ["bin"])
                              (removeTree (((baseDir ++ ["_ffmpeg_temp"]) ++
                                  [nm]) ++ ["bin"])
                                (ffmpegMid false nm fs baseDir))))) := by
                    intro hc
                    obtain ⟨hc, hz⟩ := FS.mem_del.1 hc
                    obtain ⟨hc, -⟩ := mem_removeTree.1 hc
                    rcases mem_insertIf.1 hc with ⟨hfalse, -⟩ | hc
                    · exact Bool.noConfusion hfalse
                    rcases FS.mem_ins.1 hc with he | hc
                    · exact hEBD he
                    obtain ⟨hc, -⟩ := mem_removeTree.1 hc
                    simp only [ffmpegMid] at hc
                    rcases FS.mem_ins.1 hc with he | hc
                    · exact hED he
                    rcases mem_insertIf.1 hc with ⟨hfalse, -⟩ | hc
                    · exact Bool.noConfusion hfalse
                    rcases FS.mem_ins.1 hc with he | hc
                    · exact hEIB he
                    rcases FS.mem_ins.1 hc with he | hc
                    · exact hEI he
                    rcases FS.mem_ins.1 hc with he | hc
                    · exact hET he
                    rcases FS.mem_ins.1 hc with he | hf
                    · exact hz he
                    · exact hin hf
                  rw [ffmpeg_run_ok ch tot nm false _ baseDir h1]
                  have hBDS1 :
                      (baseDir ++ ["ffmpeg_portable"]) ++ ["bin"] ∈
                      FS.del (baseDir ++ ["ffmpeg_portable.zip"])
                        (removeTree (baseDir ++ ["_ffmpeg_temp"])
                          (insertIf false ((baseDir ++ ["ffmpeg_portable"])
                              ++ ["bin", "ffmpeg.exe"])
                            (FS.ins ((baseDir ++ ["ffmpeg_portable"]) ++
                                ["bin"])
                              (removeTree (((baseDir ++ ["_ffmpeg_temp"]) ++
                                  [nm]) ++ ["bin"])
                                (ffmpegMid false nm fs baseDir))))) :=
                    FS.mem_del.2 ⟨mem_removeTree.2
                      ⟨mem_insertIf.2 (.inr (FS.mem_ins.2 (.inl rfl))),
                        hTnBD⟩, hBDZ⟩
                  rw [if_pos (mem_ffmpegMid_of_mem false nm baseDir hBDS1)]
                  have hBDfs : (baseDir ++ ["ffmpeg_portable"]) ++ ["bin"] ∉
                      fs :=
                    fun h => hbd (mem_ffmpegMid_of_mem false nm baseDir h)
                  rw [FS.seteq_iff]
                  intro p
                  simp only [ffmpegMid, FS.mem_del, mem_removeTree,
                    FS.mem_ins, mem_insertIf]
                  have hft : ¬ ((false : Bool) = true) := Bool.false_ne_true
                  have himpT : p = baseDir ++ ["_ffmpeg_temp"] →
                      (baseDir ++ ["_ffmpeg_temp"]) <+: p := by
                    intro h
                    rw [h]
                  have himpI : p = (baseDir ++ ["_ffmpeg_temp"]) ++ [nm] →
                      (baseDir ++ ["_ffmpeg_temp"]) <+: p := by
                    intro h
                    rw [h]
                    exact ⟨[nm], rfl⟩
                  have himpIB :
                      p = ((baseDir ++ ["_ffmpeg_temp"]) ++ [nm]) ++ ["bin"]
                      → (baseDir ++ ["_ffmpeg_temp"]) <+: p := by
                    intro h
                    rw [h]
                    exact ⟨[nm, "bin"], by simp⟩
                  have hnD : p = baseDir ++ ["ffmpeg_portable"] →
                      ¬ (baseDir ++ ["ffmpeg_portable"]) ++ ["bin"] <+: p := by
                    intro h hc
                    rw [h] at hc
                    have := hc.length_le
                    simp at this
                  have hnI : p = (baseDir ++ ["_ffmpeg_temp"]) ++ [nm] →
                      ¬ (baseDir ++ ["ffmpeg_portable"]) ++ ["bin"] <+: p := by
                    intro h hc
                    rw [h] at hc
                    simp only [List.append_assoc, List.cons_append,
                      List.nil_append] at hc
                    obtain ⟨t, ht⟩ := (List.prefix_append_right_inj baseDir).1 hc
                    simp at ht
                  have hnIB :
                      p = ((baseDir ++ ["_ffmpeg_temp"]) ++ [nm]) ++ ["bin"] →
                      ¬ (baseDir ++ ["ffmpeg_portable"]) ++ ["bin"] <+: p := by
                    intro h hc
                    rw [h] at hc
                    simp only [List.append_assoc, List.cons_append,
                      List.nil_append] at hc
                    obtain ⟨t, ht⟩ := (List.prefix_append_right_inj baseDir).1 hc
                    simp at ht
                  have hFp : p ∈ fs →
                      ¬ (baseDir ++ ["ffmpeg_portable"]) ++ ["bin"] <+: p :=
                    fun hq hpre =>
                      hBDfs (hpc p hq _ ((List.mem_inits _ _).2 hpre) (by simp))
                  itauto

theorem git_setup_idempotent (o : GitSetupOracle) (fs : FS)
    (baseDir : FPath) :
    FS.seteq
      (git_download_and_setup o
        (git_download_and_setup o fs baseDir).2.1 baseDir).2.1
      (git_download_and_setup o fs baseDir).2.1 = true := by
  have hxz : ¬ (baseDir ++ ["git_portable"]) ++ ["cmd", "git.exe"] =
      baseDir ++ ["git_portable.zip"] := by
    intro hc
    have := congrArg List.length hc
    simp at this
  have hxd : ¬ (baseDir ++ ["git_portable"]) ++ ["cmd", "git.exe"] =
      baseDir ++ ["git_portable"] := by
    intro hc
    have := congrArg List.length hc
    simp at this
  rw [git_setup_state, git_setup_state]
  by_cases hin : (baseDir ++ ["git_portable"]) ++ ["cmd", "git.exe"] ∈ fs
  · rw [if_pos hin, if_pos hin]
    exact FS.seteq_refl fs
  · rw [if_neg hin]
    rcases o with ⟨dl, extract, hasExe⟩
    dsimp only
    cases dl with
    | raise msg wp =>
        rw [if_neg (by
          intro hc
          rcases mem_insertIf.1 hc with ⟨_, h1⟩ | h1
          · exact hxz h1
          · exact hin h1)]
        cases wp with
        | true => exact FS.seteq_of_eq (by simp [insertIf, FS.ins_idem])
        | false => exact FS.seteq_of_eq rfl
    | success chunks total =>
        cases extract with
        | some msg =>
            rw [if_neg (by
              intro hc
              rcases FS.mem_ins.1 hc with h1 | h1
              · exact hxd h1
              rcases FS.mem_ins.1 h1 with h2 | h2
              · exact hxz h2
              · exact hin h2)]
            refine FS.seteq_of_eq ?_
            show FS.ins (baseDir ++ ["git_portable"])
                (FS.ins (baseDir ++ ["git_portable.zip"])
                  (FS.ins (baseDir ++ ["git_portable"])
                    (FS.ins (baseDir ++ ["git_portable.zip"]) fs))) =
              FS.ins (baseDir ++ ["git_portable"])
                (FS.ins (baseDir ++ ["git_portable.zip"]) fs)
            rw [FS.ins_of_mem (FS.mem_ins.2 (.inr (FS.mem_ins.2 (.inl rfl)))),
              FS.ins_of_mem (FS.mem_ins.2 (.inr (FS.mem_ins.2 (.inl rfl))))]
        | none =>
            cases hasExe with
            | true =>
                rw [if_pos (FS.mem_del.2
                  ⟨mem_insertIf.2 (.inl ⟨rfl, rfl⟩), hxz⟩)]
                exact FS.seteq_refl _
            | false =>
                have hnot : ¬ (baseDir ++ ["git_portable"]) ++
                    ["cmd", "git.exe"] ∈
                    FS.del (baseDir ++ ["git_portable.zip"])
                      (insertIf false
                        ((baseDir ++ ["git_portable"]) ++ ["cmd", "git.exe"])
                        (FS.ins (baseDir ++ ["git_portable"])
                          (FS.ins (baseDir ++ ["git_portable.zip"]) fs))) := by
                  intro hc
                  rcases FS.mem_del.1 hc with ⟨h1, _⟩
                  rcases mem_insertIf.1 h1 with ⟨hfalse, _⟩ | h2
                  · exact Bool.noConfusion hfalse
                  rcases FS.mem_ins.1 h2 with h3 | h3
                  · exact hxd h3
                  rcases FS.mem_ins.1 h3 with h4 | h4
                  · exact hxz h4
                  · exact hin h4
                rw [if_neg hnot]
                rw [FS.seteq_iff]
                intro p
                simp only [FS.mem_del, FS.mem_ins, mem_insertIf]
                have hft : ¬ ((false : Bool) = true) := Bool.false_ne_true
                tauto

theorem python_setup_skip (o : PyOracle) (fs : FS) (baseDir : FPath)
    (h : ((baseDir ++ ["python_embedded"]) ++ ["python.exe"] ∈ fs ∧
        (baseDir ++ ["python_embedded"]) ++ ["Lib", "site-packages"] ∈ fs) ∧
      o.hasPip = true) :
    python_download_and_setup o fs baseDir =
      (true, fs,
        [.progress 100 100 "Embedded Python already installed"]) := by
  unfold python_download_and_setup
  rw [if_pos h]

/-- Counterexample: when the embedded `python.exe` exists but
`python -m pip --version` fails, `PythonManager.download_and_setup` does
not return immediately: it downloads and runs `get-pip.py` and changes the
filesystem (creates `Lib/site-packages`), refuting "when the portable
Python executable exists, the operation ... performs no download ... or
file-system change". -/
theorem python_setup_not_clone_or_skip :
    (["base", "python_embedded", "python.exe"] : FPath) ∈
      ([["base", "python_embedded", "python.exe"],
        ["base", "python_embedded", "python312._pth"]] : FS) ∧
    Ev.attempt "download get-pip.py" ∈
      (python_download_and_setup
        ⟨false, .success [] 0, none, true, true, none, 0, ""⟩
        [["base", "python_embedded", "python.exe"],
         ["base", "python_embedded", "python312._pth"]] ["base"]).2.2 ∧
    ¬ (python_download_and_setup
        ⟨false, .success [] 0, none, true, true, none, 0, ""⟩
        [["base", "python_embedded", "python.exe"],
         ["base", "python_embedded", "python312._pth"]] ["base"]).2.1 =
      [["base", "python_embedded", "python.exe"],
       ["base", "python_embedded", "python312._pth"]] := by
  decide

/-- **C4** (amended).  The install/setup operations are clone-or-skip:
`install_node`, `GitManager.download_and_setup` and
`FfmpegManager.download_and_setup` return `True` immediately with an
"already installed" report and no filesystem change when their marker path
(node directory, `git.exe`, `ffmpeg.exe`) exists, and
`PythonManager.download_and_setup` does so when `python.exe` and
`Lib/site-packages` exist *and* pip works; running `install_node`, the Git
setup, or the FFmpeg setup twice from any state (for FFmpeg, any
prefix-closed state) yields the same final set of paths as running it
once. -/
theorem clone_or_skip_idempotent (clone : CloneOutcome) (venv : VenvOracle)
    (go : GitSetupOracle) (fo : FfmpegOracle) (po : PyOracle) (fs : FS)
    (baseDir comfyDir : FPath) (n : NodeInfo) :
    ((comfyDir ++ ["custom_nodes"]) ++ [repoNameOf (n.repo.getD "")] ∈ fs →
      install_node clone venv fs comfyDir n =
        (true, fs, [.progress 100 100
          (n.name.getD (defaultNodeName (n.repo.getD "")) ++
            " already installed")])) ∧
    ((baseDir ++ ["git_portable"]) ++ ["cmd", "git.exe"] ∈ fs →
      git_download_and_setup go fs baseDir =
        (true, fs, [.progress 100 100 "Portable Git already installed"])) ∧
    ((baseDir ++ ["ffmpeg_portable"]) ++ ["bin", "ffmpeg.exe"] ∈ fs →
      ffmpeg_download_and_setup fo fs baseDir =
        (true, fs,
          [.progress 100 100 "Portable FFmpeg already installed"])) ∧
    (((baseDir ++ ["python_embedded"]) ++ ["python.exe"] ∈ fs ∧
        (baseDir ++ ["python_embedded"]) ++ ["Lib", "site-packages"] ∈ fs) ∧
      po.hasPip = true →
      python_download_and_setup po fs baseDir =
        (true, fs,
          [.progress 100 100 "Embedded Python already installed"])) ∧
    FS.seteq
      (install_node clone venv
        (install_node clone venv fs comfyDir n).2.1 comfyDir n).2.1
      (install_node clone venv fs comfyDir n).2.1 = true ∧
    FS.seteq
      (git_download_and_setup go
        (git_download_and_setup go fs baseDir).2.1 baseDir).2.1
      (git_download_and_setup go fs baseDir).2.1 = true ∧
    (prefixClosed fs →
      FS.seteq
        (ffmpeg_download_and_setup fo
          (ffmpeg_download_and_setup fo fs baseDir).2.1 baseDir).2.1
        (ffmpeg_download_and_setup fo fs baseDir).2.1 = true) :=
  ⟨fun h => install_node_skip clone venv fs comfyDir n h,
   fun h => git_setup_skip go fs baseDir h,
   fun h => ffmpeg_run_skip fo fs baseDir h,
   fun h => python_setup_skip po fs baseDir h,
   install_node_idempotent clone venv fs comfyDir n,
   git_setup_idempotent go fs baseDir,
   fun hpc => ffmpeg_setup_idempotent fo fs baseDir hpc⟩

theorem clone_or_skip_idempotent_witness :
    install_node (.success true) ⟨true, true, ""⟩
      [["b"], ["b", "ComfyUI"], ["b", "ComfyUI", "custom_nodes"],
       ["b", "ComfyUI", "custom_nodes", "b"],
       ["b", "git_portable"], ["b", "git_portable", "cmd"],
       ["b", "git_portable", "cmd", "git.exe"],
       ["b", "ffmpeg_portable"], ["b", "ffmpeg_portable", "bin"],
       ["b", "ffmpeg_portable", "bin", "ffmpeg.exe"],
       ["b", "python_embedded"], ["b", "python_embedded", "python.exe"],
       ["b", "python_embedded", "Lib"],
       ["b", "python_embedded", "Lib", "site-packages"]]
      ["b", "ComfyUI"] ⟨some "https://github.com/a/b.git", some "B", none⟩ =
      (true,
       [["b"], ["b", "ComfyUI"], ["b", "ComfyUI", "custom_nodes"],
        ["b", "ComfyUI", "custom_nodes", "b"],
        ["b", "git_portable"], ["b", "git_portable", "cmd"],
        ["b", "git_portable", "cmd", "git.exe"],
        ["b", "ffmpeg_portable"], ["b", "ffmpeg_portable", "bin"],
        ["b", "ffmpeg_portable", "bin", "ffmpeg.exe"],
        ["b", "python_embedded"], ["b", "python_embedded", "python.exe"],
        ["b", "python_embedded", "Lib"],
        ["b", "python_embedded", "Lib", "site-packages"]],
       [.progress 100 100 "B already installed"]) ∧
    python_download_and_setup ⟨true, .success [] 0, none, true, true,
        none, 0, ""⟩
      [["b"], ["b", "ComfyUI"], ["b", "ComfyUI", "custom_nodes"],
       ["b", "ComfyUI", "custom_nodes", "b"],
       ["b", "git_portable"], ["b", "git_portable", "cmd"],
       ["b", "git_portable", "cmd", "git.exe"],
       ["b", "ffmpeg_portable"], ["b", "ffmpeg_portable", "bin"],
       ["b", "ffmpeg_portable", "bin", "ffmpeg.exe"],
       ["b", "python_embedded"], ["b", "python_embedded", "python.exe"],
       ["b", "python_embedded", "Lib"],
       ["b", "python_embedded", "Lib", "site-packages"]] ["b"] =
      (true,
       [["b"], ["b", "ComfyUI"], ["b", "ComfyUI", "custom_nodes"],
        ["b", "ComfyUI", "custom_nodes", "b"],
        ["b", "git_portable"], ["b", "git_portable", "cmd"],
        ["b", "git_portable", "cmd", "git.exe"],
        ["b", "ffmpeg_portable"], ["b", "ffmpeg_portable", "bin"],
        ["b", "ffmpeg_portable", "bin", "ffmpeg.exe"],
        ["b", "python_embedded"], ["b", "python_embedded", "python.exe"],
        ["b", "python_embedded", "Lib"],
        ["b", "python_embedded", "Lib", "site-packages"]],
       [.progress 100 100 "Embedded Python already installed"]) ∧
    FS.seteq
      (ffmpeg_download_and_setup ⟨.success [65536] 65536, none, some "f",
          true, true⟩
        (ffmpeg_download_and_setup ⟨.success [65536] 65536, none, some "f",
            true, true⟩ [["b"]] ["b"]).2.1 ["b"]).2.1
      (ffmpeg_download_and_setup ⟨.success [65536] 65536, none, some "f",
          true, true⟩ [["b"]] ["b"]).2.1 = true := by
  refine ⟨?_, ?_, ?_⟩
  · exact (clone_or_skip_idempotent (.success true) ⟨true, true, ""⟩
      ⟨.success [] 0, none, true⟩ ⟨.success [] 0, none, none, true, true⟩
      ⟨true, .success [] 0, none, true, true, none, 0, ""⟩ _
      ["b"] ["b", "ComfyUI"]
      ⟨some "https://github.com/a/b.git", some "B", none⟩).1 (by decide)
  · exact (clone_or_skip_idempotent (.success true) ⟨true, true, ""⟩
      ⟨.success [] 0, none, true⟩ ⟨.success [] 0, none, none, true, true⟩
      ⟨true, .success [] 0, none, true, true, none, 0, ""⟩ _
      ["b"] ["b", "ComfyUI"]
      ⟨some "https://github.com/a/b.git", some "B", none⟩).2.2.2.1
      (by decide)
  · exact (clone_or_skip_idempotent (.success true) ⟨true, true, ""⟩
      ⟨.success [] 0, none, true⟩ ⟨.success [65536] 65536, none, some "f",
        true, true⟩
      ⟨true, .success [] 0, none, true, true, none, 0, ""⟩ [["b"]]
      ["b"] ["b", "ComfyUI"]
      ⟨some "https://github.com/a/b.git", some "B", none⟩).2.2.2.2.2.2
      (prefixClosed_iff.2 (by decide))

/-- **C7**.  All thread creation in the modelled source is the bounded
pool of `min numModels maxWorkers` workers in
`ModelDownloader.download_multiple` (`max_workers` defaults to 3) plus the
single daemon WebSocket listener thread of `ComfyAPI.connect_websocket`;
no other operation creates a thread. -/
theorem thread_creation_confined :
    (∀ op : SrcOp, threadsCreated op ≠ 0 →
      (∃ n w, op = .mdDownloadMultiple n w) ∨ op = .apiConnectWebsocket) ∧
    (∀ n w, threadsCreated (.mdDownloadMultiple n w) ≤ w) ∧
    (∀ n, threadsCreated (.mdDownloadMultiple n defaultMaxWorkers) ≤ 3) ∧
    threadsCreated .apiConnectWebsocket = 1 ∧
    spawnsDaemonThread .apiConnectWebsocket = true := by
  refine ⟨?_, ?_, ?_, rfl, rfl⟩
  · intro op h
    cases op
    case mdDownloadMultiple n w => exact .inl ⟨n, w, rfl⟩
    case apiConnectWebsocket => exact .inr rfl
    all_goals exact absurd rfl h
  · intro n w
    exact Nat.min_le_right n w
  · intro n
    exact Nat.min_le_right n 3

theorem thread_creation_confined_witness :
    ((∃ n w, SrcOp.apiConnectWebsocket = SrcOp.mdDownloadMultiple n w) ∨
      SrcOp.apiConnectWebsocket = SrcOp.apiConnectWebsocket) ∧
    threadsCreated (.mdDownloadMultiple 5 defaultMaxWorkers) ≤ 3 :=
  ⟨thread_creation_confined.1 .apiConnectWebsocket (by decide),
   thread_creation_confined.2.2.1 5⟩

end Comfy
